import Mathlib

/-!
# Verification of the PathDiverge career simulator backend

Shallow embedding of `src/backend/simulator.py` (the Monte Carlo career
trajectory engine). Python floats are modelled as exact rationals `ℚ`;
Python's pseudo-random draws are modelled as explicit oracle streams of
rationals in `[0, 1)`; Python dictionaries (insertion-ordered, unique
keys) are modelled as association lists with insertion-ordered update
semantics; code that can raise (`ZeroDivisionError` from `x / 0`,
`numpy` reductions over empty arrays) returns `Except String`.
-/

/-- The eleven career states of `STATES` in `simulator.py`. -/
inductive CState where
  | entryLevel
  | junior
  | midLevel
  | senior
  | lead
  | manager
  | director
  | vp
  | cSuite
  | retired
  | unemployed
deriving DecidableEq, Repr, Fintype

/-- The rank dictionary shared (with identical contents) by
`CareerProfile.update_momentum`, `get_peak_position` and the
`state_ranks` local of `run_simulation`: Entry Level 1 up to C-Suite 9,
with Unemployed and Retired at 0 (in `run_simulation`'s copy they are
simply absent and read through `.get(_, 0)`). -/
def state_ranks : CState → ℕ
  | CState.entryLevel => 1
  | CState.junior => 2
  | CState.midLevel => 3
  | CState.senior => 4
  | CState.lead => 5
  | CState.manager => 6
  | CState.director => 7
  | CState.vp => 8
  | CState.cSuite => 9
  | CState.unemployed => 0
  | CState.retired => 0

/-- A transition row: a Python dict from state to probability, as an
insertion-ordered association list with unique keys. -/
abbrev Row : Type := List (CState × ℚ)

/-- `d.get(k, default)` on a row. -/
def rowGet (r : Row) (k : CState) (d : ℚ) : ℚ :=
  match List.find? (fun p => p.1 == k) r with
  | some p => p.2
  | none => d

/-- `k in d` on a row. -/
def rowMem (r : Row) (k : CState) : Bool :=
  List.any r (fun p => p.1 == k)

/-- `d[k] = v` on a row: overwrite in place when the key exists,
append at the end otherwise (Python dict insertion order). -/
def rowSet (r : Row) (k : CState) (v : ℚ) : Row :=
  if rowMem r k then List.map (fun p => if p.1 == k then (k, v) else p) r
  else r ++ [(k, v)]

/-- Multiply the entries whose key lies in `ks` by `f`, leaving other
entries (and keys absent from the row) untouched.  This is the shape of
the `for state in [...]: if state in modified: modified[state] *= f`
loops of `apply_decision_modifiers`. -/
def rowScaleKeys (r : Row) (ks : List CState) (f : ℚ) : Row :=
  List.map (fun p => if p.1 ∈ ks then (p.1, p.2 * f) else p) r

/-- `modified[k] = modified.get(k, 0) * f`: scale the entry when present,
insert the key with value `0 * f = 0` when absent. -/
def rowScaleKeyOrAdd (r : Row) (k : CState) (f : ℚ) : Row :=
  rowSet r k (rowGet r k 0 * f)

/-- `sum(d.values())` on a row. -/
def rowSum (r : Row) : ℚ :=
  (List.map Prod.snd r).sum

/-- The base transition table `TRANSITIONS` of `simulator.py`, rows in
source order, probabilities as exact rationals. -/
def TRANSITIONS : CState → Row
  | CState.entryLevel =>
      [(CState.entryLevel, 45/100), (CState.junior, 30/100),
       (CState.midLevel, 5/100), (CState.unemployed, 20/100)]
  | CState.junior =>
      [(CState.junior, 40/100), (CState.midLevel, 30/100),
       (CState.senior, 5/100), (CState.entryLevel, 10/100),
       (CState.unemployed, 15/100)]
  | CState.midLevel =>
      [(CState.midLevel, 50/100), (CState.senior, 20/100),
       (CState.lead, 5/100), (CState.junior, 10/100),
       (CState.unemployed, 15/100)]
  | CState.senior =>
      [(CState.senior, 55/100), (CState.lead, 15/100),
       (CState.manager, 10/100), (CState.midLevel, 10/100),
       (CState.unemployed, 10/100)]
  | CState.lead =>
      [(CState.lead, 50/100), (CState.manager, 20/100),
       (CState.director, 5/100), (CState.senior, 15/100),
       (CState.unemployed, 10/100)]
  | CState.manager =>
      [(CState.manager, 55/100), (CState.director, 15/100),
       (CState.lead, 15/100), (CState.senior, 5/100),
       (CState.unemployed, 10/100)]
  | CState.director =>
      [(CState.director, 60/100), (CState.vp, 10/100),
       (CState.manager, 15/100), (CState.unemployed, 15/100)]
  | CState.vp =>
      [(CState.vp, 65/100), (CState.cSuite, 8/100),
       (CState.director, 15/100), (CState.unemployed, 12/100)]
  | CState.cSuite =>
      [(CState.cSuite, 70/100), (CState.vp, 10/100),
       (CState.unemployed, 10/100), (CState.retired, 10/100)]
  | CState.retired =>
      [(CState.retired, 1)]
  | CState.unemployed =>
      [(CState.unemployed, 40/100), (CState.entryLevel, 30/100),
       (CState.junior, 18/100), (CState.midLevel, 10/100),
       (CState.retired, 2/100)]

/-- The per-individual mutable record of `class CareerProfile`. -/
structure CareerProfile where
  early_specialization : Bool
  risk_tolerance : String
  unemployment_history : List ℕ
  burnout_score : ℚ
  momentum_score : ℚ
  total_demotions : ℕ
  total_promotions : ℕ
deriving DecidableEq, Repr

/-- `CareerProfile.__init__`. -/
def CareerProfile.init (early_specialization : Bool) (risk_tolerance : String) :
    CareerProfile :=
  { early_specialization := early_specialization
    risk_tolerance := risk_tolerance
    unemployment_history := []
    burnout_score := 0
    momentum_score := 0
    total_demotions := 0
    total_promotions := 0 }

/-- The `stress_levels` dict of `update_burnout`, read through
`.get(state, 0)` (Retired is absent, hence 0). -/
def stress_levels : CState → ℚ
  | CState.cSuite => 5
  | CState.vp => 4
  | CState.director => 3
  | CState.manager => 2
  | CState.lead => 2
  | CState.senior => 1
  | CState.midLevel => 0
  | CState.junior => 0
  | CState.entryLevel => 0
  | CState.unemployed => -2
  | CState.retired => 0

/-- `CareerProfile.update_burnout`: add the state's stress increment,
then decay by `0.5`, floored at 0. -/
def CareerProfile.update_burnout (p : CareerProfile) (current_state : CState)
    (_years_worked : ℕ) : CareerProfile :=
  let b := p.burnout_score + stress_levels current_state
  { p with burnout_score := max 0 (b - 1/2) }

/-- `CareerProfile.update_momentum`: rank increase adds 2 and counts a
promotion, rank decrease subtracts 3 (floored at 0) and counts a
demotion, then the score decays by the factor `0.9`, floored at 0. -/
def CareerProfile.update_momentum (p : CareerProfile)
    (old_state new_state : CState) : CareerProfile :=
  let old_rank := state_ranks old_state
  let new_rank := state_ranks new_state
  let p1 :=
    if old_rank < new_rank then
      { p with momentum_score := p.momentum_score + 2
               total_promotions := p.total_promotions + 1 }
    else if new_rank < old_rank then
      { p with momentum_score := max 0 (p.momentum_score - 3)
               total_demotions := p.total_demotions + 1 }
    else p
  { p1 with momentum_score := max 0 (p1.momentum_score * (9/10)) }

/-- The age-banded base probability plus burnout/momentum/state
adjustments of `get_retirement_probability` (the value that the source
clamps into `[0, 1]` on its final line). -/
def retirementScore (p : CareerProfile) (current_state : CState) (age : ℤ) : ℚ :=
  let base : ℚ :=
    if age < 58 then 5/1000
    else if age < 62 then 3/100
    else if age < 65 then 12/100
    else if age < 68 then 30/100
    else 60/100
  let burnout_factor := min (p.burnout_score / 150) (15/100)
  let momentum_factor := -(min (p.momentum_score / 80) (10/100))
  let base :=
    if 60 < age ∧ current_state ∈ [CState.entryLevel, CState.junior, CState.midLevel]
    then base + 10/100 else base
  let base :=
    if current_state ∈ [CState.cSuite, CState.vp, CState.director]
    then base - 5/100 else base
  let base :=
    if current_state = CState.unemployed ∧ 58 < age
    then base + 15/100 else base
  base + burnout_factor + momentum_factor

/-- `get_retirement_probability`: 1.0 when already Retired, 0.0 below the
hard floor of 55, otherwise the adjusted age-banded score clamped to
`[0, 1]`. -/
def get_retirement_probability (p : CareerProfile) (current_state : CState)
    (_years_worked : ℕ) (age : ℤ) : ℚ :=
  if current_state = CState.retired then 1
  else if age < 55 then 0
  else max 0 (min 1 (retirementScore p current_state age))

/-- The early-specialization / generalist step of
`apply_decision_modifiers` (its first if/else block). -/
def specStep (early_specialization : Bool) (row : Row) (current_state : CState) : Row :=
  if early_specialization then
    if current_state ∈ [CState.entryLevel, CState.junior] then
      rowScaleKeys row [CState.junior, CState.midLevel, CState.senior] (13/10)
    else if current_state ∈ [CState.senior, CState.lead] then
      rowScaleKeyOrAdd row current_state (12/10)
    else row
  else
    if current_state ∈ [CState.manager, CState.director, CState.vp] then
      rowScaleKeys row [CState.director, CState.vp, CState.cSuite] (125/100)
    else row

/-- The risk-tolerance step of `apply_decision_modifiers` (its
`risk_tolerance == "high"` / `== "low"` block; any other string falls
through unmodified). -/
def riskStep (risk_tolerance : String) (row : Row) (current_state : CState) : Row :=
  if risk_tolerance = "high" then
    if current_state = CState.unemployed then
      rowScaleKeyOrAdd (rowScaleKeyOrAdd row CState.midLevel (15/10))
        CState.unemployed (75/100)
    else if current_state ∈ [CState.senior, CState.lead, CState.manager] then
      List.map (fun p =>
        if p.1 ∈ [CState.lead, CState.manager, CState.director] ∧ p.1 ≠ current_state
        then (p.1, p.2 * (135/100)) else p) row
    else if current_state ∈ [CState.director, CState.vp] then
      rowScaleKeys row [CState.vp, CState.cSuite] (140/100)
    else row
  else if risk_tolerance = "low" then
    let row1 :=
      if current_state = CState.unemployed then
        rowScaleKeyOrAdd (rowScaleKeyOrAdd row CState.entryLevel (13/10))
          CState.unemployed (105/100)
      else row
    rowScaleKeys row1 [current_state] (115/100)
  else row

/-- The final normalization of `apply_decision_modifiers`: divide by the
total when it is positive, otherwise return the row unchanged (the
source's `if total > 0:` guard has no else branch). -/
def normalizeStep (row : Row) : Row :=
  let total := rowSum row
  if 0 < total then List.map (fun p => (p.1, p.2 / total)) row else row

/-- `apply_decision_modifiers`: specialization step, then risk step,
then normalization, exactly in source order. -/
def apply_decision_modifiers (profile : CareerProfile) (transitions : Row)
    (current_state : CState) (_years_worked : ℕ) : Row :=
  normalizeStep
    (riskStep profile.risk_tolerance
      (specStep profile.early_specialization transitions current_state)
      current_state)

/-- `random.choices(keys, weights)[0]`: with `x = c * total`, pick the
first entry whose cumulative weight exceeds `x`, clamped to the last
entry (CPython's `bisect(cum_weights, random() * total, 0, n - 1)`).
The empty-row value is arbitrary: `random.choices` raises there and the
simulator never passes an empty row. -/
def pickIndex : ℚ → Row → CState
  | _, [] => CState.unemployed
  | x, (s, w) :: rest =>
    if rest.isEmpty then s
    else if x < w then s else pickIndex (x - w) rest

/-- The weighted draw of `simulate_career`, fed one uniform draw
`c ∈ [0, 1)`. -/
def weightedChoice (c : ℚ) (row : Row) : CState :=
  pickIndex (c * rowSum row) row

/-- One year's pseudo-random draws: the retirement `random.random()`
and the `random.choices` uniform, both in `[0, 1)`. -/
def YearDraws : Type := ℕ → ℚ × ℚ

/-- The body of one iteration of `simulate_career`'s year loop: the
state appended this year and the profile after this year.  A Retired
current state is appended unchanged (`continue` without updates);
otherwise burnout is updated, the retirement Bernoulli trial is taken
at age `starting_age + year + 1` (the source increments `current_age`
at the top of the body), and on failure the next state is drawn from
the modified transition row, momentum is updated, and an Unemployed
draw appends the year index to `unemployment_history`. -/
def yearStep (d : YearDraws) (starting_age : ℤ) (year : ℕ) (current : CState)
    (profile : CareerProfile) : CState × CareerProfile :=
  if current = CState.retired then
    (CState.retired, profile)
  else
    let profile1 := profile.update_burnout current year
    let age : ℤ := starting_age + (year : ℤ) + 1
    let rprob := get_retirement_probability profile1 current year age
    let rc := d year
    if rc.1 < rprob then
      (CState.retired, profile1)
    else
      let modified := apply_decision_modifiers profile1 (TRANSITIONS current) current year
      let next := weightedChoice rc.2 modified
      let profile2 := profile1.update_momentum current next
      let profile3 :=
        if next = CState.unemployed then
          { profile2 with unemployment_history := profile2.unemployment_history ++ [year] }
        else profile2
      (next, profile3)

/-- The year loop of `simulate_career`, structurally recursive on the
remaining years: run `yearStep`, append the state it produced, recurse
on the next year.  Returns the states appended during the remaining
years and the final profile. -/
def simulateStep (d : YearDraws) (starting_age : ℤ) :
    ℕ → ℕ → CState → CareerProfile → List CState × CareerProfile
  | 0, _, _, profile => ([], profile)
  | n + 1, year, current, profile =>
    let s := yearStep d starting_age year current profile
    let rest := simulateStep d starting_age n (year + 1) s.1 s.2
    (s.1 :: rest.1, rest.2)

/-- `simulate_career`: start at Entry Level, run `max_years` loop
iterations (`range` of a non-positive bound is empty), return the full
trajectory (initial state included) and the final profile. -/
def simulate_career (d : YearDraws) (max_years : ℤ) (starting_age : ℤ)
    (profile : CareerProfile) : List CState × CareerProfile :=
  let rest := simulateStep d starting_age max_years.toNat 0 CState.entryLevel profile
  (CState.entryLevel :: rest.1, rest.2)

/-- `get_peak_position`: fold over the trajectory keeping the
highest-ranked state seen so far, starting from rank 0 and
"Entry Level"; only a strictly greater rank replaces the peak. -/
def get_peak_position (career : List CState) : CState :=
  (career.foldl
    (fun acc s => if acc.1 < state_ranks s then (state_ranks s, s) else acc)
    (0, CState.entryLevel)).2

/-- One entry of the `careers_data` list built by `run_batch`. -/
structure CareerRecord where
  career : List CState
  peak : CState
  profile : CareerProfile
  final_state : CState
deriving DecidableEq, Repr

/-- `peak_counts[peak] = peak_counts.get(peak, 0) + 1` on the histogram
dict: increment in place when the key exists (keys are unique), append
`(k, 1)` at the end otherwise. -/
def bumpCount : List (CState × ℕ) → CState → List (CState × ℕ)
  | [], k => [(k, 1)]
  | (k1, v) :: rest, k =>
    if k1 = k then (k1, v + 1) :: rest else (k1, v) :: bumpCount rest k

/-- The peak-state histogram of a batch, built in `careers_data` order
starting from the empty dict. -/
def peakCountsOf (careers : List CareerRecord) : List (CState × ℕ) :=
  careers.foldl (fun acc r => bumpCount acc r.peak) []

/-- Per-iteration draw streams of one batch. -/
def BatchDraws : Type := ℕ → YearDraws

/-- The `for _ in range(n_simulations)` loop of `run_batch`: one fresh
profile per iteration, one full `simulate_career`, and the record
stored in `careers_data` (`range` of a non-positive count is empty). -/
def careersData (early_spec : Bool) (risk_level : String)
    (max_years starting_age : ℤ) (draws : BatchDraws) (n : ℤ) : List CareerRecord :=
  (List.range n.toNat).map (fun i =>
    let profile := CareerProfile.init early_spec risk_level
    let res := simulate_career (draws i) max_years starting_age profile
    { career := res.1
      peak := get_peak_position res.1
      profile := res.2
      final_state := res.1.getLastD CState.entryLevel })

/-- The raw aggregates `run_batch` returns. -/
structure BatchRaw where
  director_prob : ℚ
  retire_ages : List ℤ
  unemployment_durations : List ℕ
  peak_counts : List (CState × ℕ)
  total : ℕ
deriving DecidableEq, Repr

/-- The `run_batch` closure inside `run_simulation`.  With zero
simulations the Python source raises `ZeroDivisionError` at
`director_plus_count / len(careers_data)`; that is the only failure
point.  `retire_ages` keeps `starting_age + career.index("Retired")`
for the careers containing Retired, in batch order. -/
def run_batch (early_spec : Bool) (risk_level : String)
    (max_years starting_age : ℤ) (draws : BatchDraws) (n : ℤ) :
    Except String BatchRaw :=
  let careers := careersData early_spec risk_level max_years starting_age draws n
  if careers.length = 0 then Except.error "ZeroDivisionError"
  else Except.ok
    { director_prob :=
        ((careers.filter (fun r => decide (7 ≤ state_ranks r.peak))).length : ℚ) /
          (careers.length : ℚ)
      retire_ages := careers.filterMap (fun r =>
        if r.career.contains CState.retired then
          some (starting_age + (r.career.findIdx (fun s => s == CState.retired) : ℤ))
        else none)
      unemployment_durations := careers.map (fun r => r.profile.unemployment_history.length)
      peak_counts := peakCountsOf careers
      total := careers.length }

/-- Python's `round(x, d)` on our exact rationals: round to the nearest
multiple of `10 ^ (-d)`.  (CPython rounds the nearest binary double
with ties-to-even; on the exact values reached in the verified
properties no tie is hit, and every property proved about `pyRound`
only uses `|pyRound x d - x| ≤ 1 / (2 * 10 ^ d)` and monotone bounds,
which hold for either tie rule.) -/
def pyRound (x : ℚ) (d : ℕ) : ℚ :=
  (round (x * 10 ^ d) : ℚ) / 10 ^ d

/-- `numpy.mean` of a list of rationals (callers guard non-emptiness
exactly where the source does). -/
def npMean (l : List ℚ) : ℚ := l.sum / l.length

/-- Insertion sort, ascending: the sorted order `numpy` uses for median
and percentile. -/
def insertSorted (x : ℚ) : List ℚ → List ℚ
  | [] => [x]
  | y :: ys => if x ≤ y then x :: y :: ys else y :: insertSorted x ys

def sortQ (l : List ℚ) : List ℚ := l.foldr insertSorted []

/-- `numpy.median`: middle element of the sorted list, or the mean of
the two middle elements for even length. -/
def npMedian (l : List ℚ) : ℚ :=
  let s := sortQ l
  let n := s.length
  if n % 2 = 1 then s.getD (n / 2) 0
  else (s.getD (n / 2 - 1) 0 + s.getD (n / 2) 0) / 2

/-- `numpy.percentile(a, q)` with the default linear interpolation:
position `q/100 * (n-1)` in the sorted data, interpolated between the
two neighbouring order statistics.  `numpy` raises on an empty array. -/
def npPercentile (l : List ℚ) (q : ℚ) : Except String ℚ :=
  if l.isEmpty then Except.error "zero-size array"
  else
    let s := sortQ l
    let pos := q / 100 * ((l.length : ℚ) - 1)
    let i := (⌊pos⌋ : ℤ).toNat
    let frac := pos - (⌊pos⌋ : ℚ)
    let lo := s.getD i 0
    let hi := s.getD (i + 1) lo
    Except.ok (lo + frac * (hi - lo))

/-- The configuration dictionary read by `run_simulation` (each field's
default is the `config.get(...)` default of the source; `iterations`,
`max_years` and `ci_iterations` are `ℤ` so that the non-positive inputs
the spec discusses are expressible). -/
structure SimConfig where
  specialization : String := "none"
  risk_level : String := "medium"
  iterations : ℤ := 2500
  max_years : ℤ := 45
  starting_age : ℤ := 22
  compute_ci : Bool := false
  ci_iterations : ℤ := 30
deriving DecidableEq, Repr

/-- The `meta.config` echo of `run_simulation`'s result. -/
structure MetaConfig where
  specialization : String
  risk_level : String
  iterations : ℤ
  max_years : ℤ
  starting_age : ℤ
  compute_ci : Bool
deriving DecidableEq, Repr

/-- The structured result of `run_simulation`: the director-probability
metric (with optional CI bounds), the retirement-age and unemployment
metrics, the normalized `peak_role` distribution and the meta block.
The `std` fields of the source (square roots, hence irrational) are
outside every verified property and are not modelled. -/
structure SimResult where
  director_mean : ℚ
  director_ci_lower : Option ℚ
  director_ci_upper : Option ℚ
  retirement_age_mean : Option ℚ
  unemployment_mean : ℚ
  unemployment_median : Option ℚ
  peak_role : List (CState × ℚ)
  total_simulations : ℤ
  config : MetaConfig
deriving DecidableEq, Repr

/-- Assembling `run_simulation`'s return dictionary from the primary
batch and the optional CI bounds. -/
def buildResult (config : SimConfig) (b : BatchRaw) (lo hi : Option ℚ) : SimResult :=
  { director_mean := pyRound b.director_prob 4
    director_ci_lower := lo
    director_ci_upper := hi
    retirement_age_mean :=
      if b.retire_ages.isEmpty then none
      else some (pyRound (npMean (b.retire_ages.map (fun z => (z : ℚ)))) 2)
    unemployment_mean :=
      if b.unemployment_durations.isEmpty then 0
      else pyRound (npMean (b.unemployment_durations.map (fun n => (n : ℚ)))) 2
    unemployment_median :=
      if b.unemployment_durations.isEmpty then none
      else some (pyRound (npMedian (b.unemployment_durations.map (fun n => (n : ℚ)))) 2)
    peak_role := b.peak_counts.map (fun p => (p.1, pyRound ((p.2 : ℚ) / (b.total : ℚ)) 4))
    total_simulations := config.iterations
    config :=
      { specialization := if config.specialization == "early" then "early" else "none"
        risk_level := config.risk_level
        iterations := config.iterations
        max_years := config.max_years
        starting_age := config.starting_age
        compute_ci := config.compute_ci } }

/-- Per-batch draw streams of one `run_simulation` call: batch 0 is the
primary batch, batch `j + 1` the `j`-th bootstrap batch. -/
def SimDraws : Type := ℕ → BatchDraws

/-- The bootstrap loop: `ci_iterations` further batches, keeping each
one's raw achievement rate. -/
def bootstrapProbs (early_spec : Bool) (risk_level : String)
    (max_years starting_age iterations : ℤ) (draws : SimDraws) (k : ℕ) :
    Except String (List ℚ) :=
  (List.range k).mapM (fun j =>
    Except.map (fun b => b.director_prob)
      (run_batch early_spec risk_level max_years starting_age (draws (j + 1)) iterations))

/-- `run_simulation`: parse the configuration (unrecognized
`specialization` values behave as "none", unrecognized `risk_level`
values reach the profile verbatim), run the primary batch, optionally
bootstrap the 95% CI, and assemble the result. -/
def run_simulation (config : SimConfig) (draws : SimDraws) : Except String SimResult :=
  let early_spec := config.specialization == "early"
  match run_batch early_spec config.risk_level config.max_years config.starting_age
      (draws 0) config.iterations with
  | Except.error e => Except.error e
  | Except.ok primary =>
    if config.compute_ci then
      match bootstrapProbs early_spec config.risk_level config.max_years
          config.starting_age config.iterations draws config.ci_iterations.toNat with
      | Except.error e => Except.error e
      | Except.ok probs =>
        match npPercentile probs (25/10), npPercentile probs (975/10) with
        | Except.error e, _ => Except.error e
        | Except.ok _, Except.error e => Except.error e
        | Except.ok lo, Except.ok hi =>
          Except.ok (buildResult config primary (some (pyRound lo 4)) (some (pyRound hi 4)))
    else Except.ok (buildResult config primary none none)

/-- The result of `run_comparative_analysis`: the three named
intervention results and the two deltas. -/
structure CompResult where
  control : SimResult
  specialist : SimResult
  risktaker : SimResult
  specialist_vs_control : ℚ
  risktaker_vs_control : ℚ
deriving DecidableEq, Repr

/-- The `control` configuration dict of `run_comparative_analysis`
(no specialization, medium risk) with `iterations`/`compute_ci` filled
in by its loop; the remaining keys take `run_simulation`'s defaults. -/
def controlConfig (iterations : ℤ) (compute_ci : Bool) : SimConfig :=
  { specialization := "none", risk_level := "medium"
    iterations := iterations, compute_ci := compute_ci }

/-- The `specialist` configuration (early specialization, medium risk). -/
def specialistConfig (iterations : ℤ) (compute_ci : Bool) : SimConfig :=
  { specialization := "early", risk_level := "medium"
    iterations := iterations, compute_ci := compute_ci }

/-- The `risktaker` configuration (no specialization, high risk). -/
def risktakerConfig (iterations : ℤ) (compute_ci : Bool) : SimConfig :=
  { specialization := "none", risk_level := "high"
    iterations := iterations, compute_ci := compute_ci }

/-- `run_comparative_analysis`: run the three fixed configurations
through `run_simulation`, then report the two deltas against control on
the reported `director_probability.mean`, rounded to 4 places. -/
def run_comparative_analysis (iterations : ℤ) (compute_ci : Bool)
    (dControl dSpecialist dRisktaker : SimDraws) : Except String CompResult :=
  match run_simulation (controlConfig iterations compute_ci) dControl with
  | Except.error e => Except.error e
  | Except.ok control =>
    match run_simulation (specialistConfig iterations compute_ci) dSpecialist with
    | Except.error e => Except.error e
    | Except.ok specialist =>
      match run_simulation (risktakerConfig iterations compute_ci) dRisktaker with
      | Except.error e => Except.error e
      | Except.ok risktaker =>
        Except.ok
          { control := control
            specialist := specialist
            risktaker := risktaker
            specialist_vs_control :=
              pyRound (specialist.director_mean - control.director_mean) 4
            risktaker_vs_control :=
              pyRound (risktaker.director_mean - control.director_mean) 4 }

/-! ## Trajectory lemmas -/

theorem yearStep_retired (d : YearDraws) (sa : ℤ) (y : ℕ) (p : CareerProfile) :
    yearStep d sa y CState.retired p = (CState.retired, p) := by
  simp [yearStep]

theorem simulateStep_retired (d : YearDraws) (sa : ℤ) (n y : ℕ) (p : CareerProfile) :
    simulateStep d sa n y CState.retired p = (List.replicate n CState.retired, p) := by
  induction n generalizing y with
  | zero => simp [simulateStep]
  | succ n ih => simp [simulateStep, yearStep_retired, ih, List.replicate_succ]

theorem simulateStep_length (d : YearDraws) (sa : ℤ) (n y : ℕ) (c : CState)
    (p : CareerProfile) : (simulateStep d sa n y c p).1.length = n := by
  induction n generalizing y c p with
  | zero => simp [simulateStep]
  | succ n ih => simp [simulateStep, ih]

theorem simulate_career_fst (d : YearDraws) (my sa : ℤ) (p : CareerProfile) :
    (simulate_career d my sa p).1 =
      CState.entryLevel :: (simulateStep d sa my.toNat 0 CState.entryLevel p).1 := rfl

theorem simulate_career_length (d : YearDraws) (my sa : ℤ) (p : CareerProfile) :
    (simulate_career d my sa p).1.length = my.toNat + 1 := by
  simp [simulate_career_fst, simulateStep_length]

/-- Absorption: every entry from a Retired entry on is Retired. -/
def retiredAbsorbing (l : List CState) : Prop :=
  ∀ i j, i ≤ j → l.get? i = some CState.retired → j < l.length →
    l.get? j = some CState.retired

theorem retiredAbsorbing_of_all (l : List CState)
    (h : ∀ s ∈ l, s = CState.retired) : retiredAbsorbing l := by
  intro i j _ _ hj
  rcases List.get?_eq_get hj with h3
  rw [h3, h (l.get ⟨j, hj⟩) (l.get_mem j hj)]

theorem retiredAbsorbing_cons (x : CState) (t : List CState)
    (hx : x = CState.retired → ∀ s ∈ t, s = CState.retired)
    (ht : retiredAbsorbing t) : retiredAbsorbing (x :: t) := by
  intro i j hij hi hj
  cases i with
  | zero =>
    rw [List.get?_cons_zero] at hi
    have hxr : x = CState.retired := by injection hi
    cases j with
    | zero => simpa using hi
    | succ j =>
      rw [List.get?_cons_succ]
      have hj2 : j < t.length := by simpa using hj
      rcases List.get?_eq_get hj2 with h3
      rw [h3, hx hxr (t.get ⟨j, hj2⟩) (t.get_mem j hj2)]
  | succ i =>
    cases j with
    | zero => omega
    | succ j =>
      rw [List.get?_cons_succ] at hi ⊢
      exact ht i j (by omega) hi (by simpa using hj)

theorem simulateStep_absorbing (d : YearDraws) (sa : ℤ) (n y : ℕ) (c : CState)
    (p : CareerProfile) : retiredAbsorbing (simulateStep d sa n y c p).1 := by
  induction n generalizing y c p with
  | zero =>
    intro i j _ hi _
    simp [simulateStep] at hi
  | succ n ih =>
    show retiredAbsorbing (simulateStep d sa (n + 1) y c p).1
    have hstep : (simulateStep d sa (n + 1) y c p).1 =
        (yearStep d sa y c p).1 ::
          (simulateStep d sa n (y + 1) (yearStep d sa y c p).1 (yearStep d sa y c p).2).1 := by
      simp [simulateStep]
    rw [hstep]
    apply retiredAbsorbing_cons
    · intro hr s hs
      rw [hr] at hs
      rw [simulateStep_retired] at hs
      exact List.eq_of_mem_replicate hs
    · exact ih (y + 1) _ _

/-- C7 — For every trajectory returned by `simulate_career` (any
`max_years`, `starting_age`, draw stream and profile), once a Retired
entry appears every subsequent entry is Retired. -/
theorem claim_C7_retired_absorbing (d : YearDraws) (max_years starting_age : ℤ)
    (p : CareerProfile) : retiredAbsorbing (simulate_career d max_years starting_age p).1 := by
  rw [simulate_career_fst]
  apply retiredAbsorbing_cons
  · intro h
    exact absurd h (by decide)
  · exact simulateStep_absorbing d starting_age max_years.toNat 0 CState.entryLevel p

/-! ## Retirement policy and profile-score claims -/

/-- C8 — `get_retirement_probability` always lies in `[0, 1]`, is
exactly 1 in the Retired state, and is exactly 0 below age 55 outside
the Retired state, for every profile. -/
theorem claim_C8_retirement_probability_contract (p : CareerProfile)
    (current_state : CState) (years_worked : ℕ) (age : ℤ) :
    0 ≤ get_retirement_probability p current_state years_worked age ∧
    get_retirement_probability p current_state years_worked age ≤ 1 ∧
    (current_state = CState.retired →
      get_retirement_probability p current_state years_worked age = 1) ∧
    (current_state ≠ CState.retired → age < 55 →
      get_retirement_probability p current_state years_worked age = 0) := by
  by_cases hr : current_state = CState.retired
  · simp [get_retirement_probability, hr]
  · by_cases ha : age < 55
    · simp [get_retirement_probability, hr, ha]
    · have h0 : get_retirement_probability p current_state years_worked age =
          max 0 (min 1 (retirementScore p current_state age)) := by
        simp [get_retirement_probability, hr, ha]
      refine ⟨by rw [h0]; exact le_max_left 0 _, ?_, fun h => absurd h hr, fun _ h => absurd h ha⟩
      rw [h0]
      exact max_le (by norm_num) (min_le_left 1 _)

theorem update_burnout_scores (p : CareerProfile) (s : CState) (y : ℕ) :
    0 ≤ (p.update_burnout s y).burnout_score ∧
    (p.update_burnout s y).momentum_score = p.momentum_score := by
  constructor
  · exact le_max_left 0 _
  · simp [CareerProfile.update_burnout]

theorem update_momentum_scores (p : CareerProfile) (o n : CState)
    (h : 0 ≤ p.momentum_score) :
    0 ≤ (p.update_momentum o n).momentum_score ∧
    (p.update_momentum o n).burnout_score = p.burnout_score := by
  constructor
  · exact le_max_left 0 _
  · simp only [CareerProfile.update_momentum]
    split
    · simp
    · split <;> simp

/-- One call to either update operation of `CareerProfile`. -/
inductive ProfileOp where
  | burnout (state : CState) (years_worked : ℕ)
  | momentum (old_state new_state : CState)

/-- Run one update operation on a profile. -/
def applyOp (p : CareerProfile) : ProfileOp → CareerProfile
  | ProfileOp.burnout s y => p.update_burnout s y
  | ProfileOp.momentum o n => p.update_momentum o n

/-- Run a sequence of update operations on a profile. -/
def applyOps (p : CareerProfile) (ops : List ProfileOp) : CareerProfile :=
  ops.foldl applyOp p

theorem applyOp_nonneg (p : CareerProfile) (op : ProfileOp)
    (hb : 0 ≤ p.burnout_score) (hm : 0 ≤ p.momentum_score) :
    0 ≤ (applyOp p op).burnout_score ∧ 0 ≤ (applyOp p op).momentum_score := by
  cases op with
  | burnout s y =>
    refine ⟨(update_burnout_scores p s y).1, ?_⟩
    rw [show applyOp p (ProfileOp.burnout s y) = p.update_burnout s y from rfl,
      (update_burnout_scores p s y).2]
    exact hm
  | momentum o n =>
    refine ⟨?_, (update_momentum_scores p o n hm).1⟩
    rw [show applyOp p (ProfileOp.momentum o n) = p.update_momentum o n from rfl,
      (update_momentum_scores p o n hm).2]
    exact hb

theorem applyOps_nonneg (p : CareerProfile) (ops : List ProfileOp)
    (hb : 0 ≤ p.burnout_score) (hm : 0 ≤ p.momentum_score) :
    0 ≤ (applyOps p ops).burnout_score ∧ 0 ≤ (applyOps p ops).momentum_score := by
  induction ops generalizing p with
  | nil => exact ⟨hb, hm⟩
  | cons op rest ih =>
    have h1 := applyOp_nonneg p op hb hm
    exact ih (applyOp p op) h1.1 h1.2

/-- C9 — Starting from a fresh profile, every sequence of
`update_burnout`/`update_momentum` calls keeps `burnout_score` and
`momentum_score` non-negative. -/
theorem claim_C9_scores_nonnegative (early_specialization : Bool)
    (risk_tolerance : String) (ops : List ProfileOp) :
    0 ≤ (applyOps (CareerProfile.init early_specialization risk_tolerance) ops).burnout_score ∧
    0 ≤ (applyOps (CareerProfile.init early_specialization risk_tolerance) ops).momentum_score :=
  applyOps_nonneg _ ops (by simp [CareerProfile.init]) (by simp [CareerProfile.init])

/-! ## Transition-modifier normalization -/

theorem riskStep_other (risk_tolerance : String) (row : Row) (s : CState)
    (h1 : risk_tolerance ≠ "high") (h2 : risk_tolerance ≠ "low") :
    riskStep risk_tolerance row s = row := by
  simp [riskStep, h1, h2]

/-- No value of the row is negative. -/
def rowNonneg (r : Row) : Prop :=
  ∀ q ∈ List.map Prod.snd r, (0:ℚ) ≤ q

theorem rowNonneg_pairs (r : Row) (h : ∀ p ∈ r, (0:ℚ) ≤ p.2) : rowNonneg r := by
  intro q hq
  obtain ⟨p, hp, he⟩ := List.mem_map.mp hq
  rw [← he]
  exact h p hp

theorem rowNonneg_mem (r : Row) (h : rowNonneg r) (p : CState × ℚ) (hp : p ∈ r) :
    (0:ℚ) ≤ p.2 :=
  h p.2 (List.mem_map.mpr ⟨p, hp, rfl⟩)

theorem rowGet_nonneg (r : Row) (k : CState) (d : ℚ) (hd : 0 ≤ d)
    (h : rowNonneg r) : 0 ≤ rowGet r k d := by
  unfold rowGet
  cases hf : List.find? (fun p => p.1 == k) r with
  | none => exact hd
  | some p => exact rowNonneg_mem r h p (List.mem_of_find?_eq_some hf)

theorem rowNonneg_set (r : Row) (k : CState) (v : ℚ) (hv : 0 ≤ v)
    (h : rowNonneg r) : rowNonneg (rowSet r k v) := by
  apply rowNonneg_pairs
  intro p hp
  unfold rowSet at hp
  by_cases hm : rowMem r k
  · rw [if_pos hm] at hp
    obtain ⟨q, hq, he⟩ := List.mem_map.mp hp
    by_cases hc : q.1 == k
    · rw [if_pos hc] at he
      rw [← he]
      exact hv
    · rw [if_neg hc] at he
      rw [← he]
      exact rowNonneg_mem r h q hq
  · rw [if_neg hm] at hp
    rcases List.mem_append.mp hp with hq | hq
    · exact rowNonneg_mem r h p hq
    · rw [List.mem_singleton.mp hq]
      exact hv

theorem rowNonneg_scaleKeys (r : Row) (ks : List CState) (f : ℚ) (hf : 0 ≤ f)
    (h : rowNonneg r) : rowNonneg (rowScaleKeys r ks f) := by
  apply rowNonneg_pairs
  intro p hp
  obtain ⟨q, hq, he⟩ := List.mem_map.mp hp
  by_cases hc : q.1 ∈ ks
  · rw [if_pos hc] at he
    rw [← he]
    exact mul_nonneg (rowNonneg_mem r h q hq) hf
  · rw [if_neg hc] at he
    rw [← he]
    exact rowNonneg_mem r h q hq

theorem rowNonneg_scaleKeyOrAdd (r : Row) (k : CState) (f : ℚ) (hf : 0 ≤ f)
    (h : rowNonneg r) : rowNonneg (rowScaleKeyOrAdd r k f) :=
  rowNonneg_set r k _ (mul_nonneg (rowGet_nonneg r k 0 le_rfl h) hf) h

theorem rowNonneg_specStep (es : Bool) (row : Row) (s : CState)
    (h : rowNonneg row) : rowNonneg (specStep es row s) := by
  unfold specStep
  split_ifs
  any_goals exact h
  · exact rowNonneg_scaleKeys row _ _ (by norm_num) h
  · exact rowNonneg_scaleKeyOrAdd row _ _ (by norm_num) h
  · exact rowNonneg_scaleKeys row _ _ (by norm_num) h

theorem rowNonneg_riskStep (rt : String) (row : Row) (s : CState)
    (h : rowNonneg row) : rowNonneg (riskStep rt row s) := by
  unfold riskStep
  split_ifs
  any_goals exact h
  · exact rowNonneg_scaleKeyOrAdd _ _ _ (by norm_num)
      (rowNonneg_scaleKeyOrAdd row _ _ (by norm_num) h)
  · apply rowNonneg_pairs
    intro p hp
    obtain ⟨q, hq, he⟩ := List.mem_map.mp hp
    by_cases hc : q.1 ∈ [CState.lead, CState.manager, CState.director] ∧ q.1 ≠ s
    · rw [if_pos hc] at he
      rw [← he]
      exact mul_nonneg (rowNonneg_mem row h q hq) (by norm_num)
    · rw [if_neg hc] at he
      rw [← he]
      exact rowNonneg_mem row h q hq
  · exact rowNonneg_scaleKeys row _ _ (by norm_num) h
  · exact rowNonneg_scaleKeys _ _ _ (by norm_num)
      (rowNonneg_scaleKeyOrAdd _ _ _ (by norm_num)
        (rowNonneg_scaleKeyOrAdd row _ _ (by norm_num) h))
  · exact rowNonneg_scaleKeys row _ _ (by norm_num) h

theorem rowNonneg_normalizeStep (row : Row) (h : rowNonneg row) :
    rowNonneg (normalizeStep row) := by
  unfold normalizeStep
  by_cases ht : 0 < rowSum row
  · rw [if_pos ht]
    apply rowNonneg_pairs
    intro p hp
    obtain ⟨q, hq, he⟩ := List.mem_map.mp hp
    rw [← he]
    exact div_nonneg (rowNonneg_mem row h q hq) (le_of_lt ht)
  · rw [if_neg ht]
    exact h

theorem rowNonneg_modifiers (p : CareerProfile) (row : Row) (s : CState)
    (y : ℕ) (h : rowNonneg row) :
    rowNonneg (apply_decision_modifiers p row s y) :=
  rowNonneg_normalizeStep _
    (rowNonneg_riskStep _ _ _ (rowNonneg_specStep _ _ _ h))

set_option maxHeartbeats 1000000 in
theorem TRANSITIONS_nonneg (s : CState) : rowNonneg (TRANSITIONS s) := by
  cases s <;> (simp [rowNonneg, TRANSITIONS] <;> norm_num)

set_option maxHeartbeats 8000000 in
/-- C6 — For every profile and every state of the base transition
table, the row `apply_decision_modifiers` returns sums to exactly 1 (in
particular within `1e-9`) and contains no negative probability. -/
theorem claim_C6_modifier_row_normalized (p : CareerProfile) (s : CState)
    (years_worked : ℕ) :
    rowSum (apply_decision_modifiers p (TRANSITIONS s) s years_worked) = 1 ∧
    ∀ q ∈ List.map Prod.snd (apply_decision_modifiers p (TRANSITIONS s) s years_worked),
      0 ≤ q := by
  refine ⟨?_, rowNonneg_modifiers p (TRANSITIONS s) s years_worked (TRANSITIONS_nonneg s)⟩
  obtain ⟨es, rt, uh, b, m, td, tp⟩ := p
  show rowSum (normalizeStep (riskStep rt (specStep es (TRANSITIONS s) s) s)) = 1
  by_cases h1 : rt = "high"
  · subst h1
    cases es <;> cases s <;>
      (simp [specStep, riskStep, normalizeStep, rowScaleKeyOrAdd, rowScaleKeys,
        rowSet, rowGet, rowMem, rowSum, TRANSITIONS] <;> norm_num)
  · by_cases h2 : rt = "low"
    · subst h2
      cases es <;> cases s <;>
        (simp [specStep, riskStep, normalizeStep, rowScaleKeyOrAdd, rowScaleKeys,
          rowSet, rowGet, rowMem, rowSum, TRANSITIONS] <;> norm_num)
    · rw [riskStep_other rt _ s h1 h2]
      cases es <;> cases s <;>
        (simp [specStep, normalizeStep, rowScaleKeyOrAdd, rowScaleKeys,
          rowSet, rowGet, rowMem, rowSum, TRANSITIONS] <;> norm_num)

/-! ## Peak positions and the peak-count histogram -/

theorem state_ranks_pos_ne (s : CState) (h : 0 < state_ranks s) :
    s ≠ CState.unemployed ∧ s ≠ CState.retired := by
  cases s <;> simp_all [state_ranks]

theorem get_peak_position_aux_ne (l : List CState) :
    ∀ acc : ℕ × CState, acc.2 ≠ CState.unemployed → acc.2 ≠ CState.retired →
      (l.foldl (fun acc s => if acc.1 < state_ranks s then (state_ranks s, s) else acc)
          acc).2 ≠ CState.unemployed ∧
      (l.foldl (fun acc s => if acc.1 < state_ranks s then (state_ranks s, s) else acc)
          acc).2 ≠ CState.retired := by
  induction l with
  | nil => exact fun acc h1 h2 => ⟨h1, h2⟩
  | cons s t ih =>
    intro acc h1 h2
    simp only [List.foldl_cons]
    by_cases hc : acc.1 < state_ranks s
    · rw [if_pos hc]
      have hs := state_ranks_pos_ne s (Nat.lt_of_le_of_lt (Nat.zero_le _) hc)
      exact ih (state_ranks s, s) hs.1 hs.2
    · rw [if_neg hc]
      exact ih acc h1 h2

theorem get_peak_position_aux_zero (l : List CState)
    (h : ∀ s ∈ l, state_ranks s = 0) :
    ∀ acc : ℕ × CState,
      l.foldl (fun acc s => if acc.1 < state_ranks s then (state_ranks s, s) else acc)
        acc = acc := by
  induction l with
  | nil => exact fun acc => rfl
  | cons s t ih =>
    intro acc
    simp only [List.foldl_cons]
    rw [h s (List.mem_cons_self s t), if_neg (Nat.not_lt_zero acc.1)]
    exact ih (fun x hx => h x (List.mem_cons_of_mem s hx)) acc

theorem get_peak_position_ne (career : List CState) :
    get_peak_position career ≠ CState.unemployed ∧
    get_peak_position career ≠ CState.retired :=
  get_peak_position_aux_ne career (0, CState.entryLevel) (by decide) (by decide)

/-- Sum of the histogram's counts. -/
def countsSum (c : List (CState × ℕ)) : ℕ :=
  (c.map Prod.snd).sum

/-- Keys of the histogram, in order. -/
def countKeys (c : List (CState × ℕ)) : List CState :=
  c.map Prod.fst

theorem bumpCount_sum (c : List (CState × ℕ)) (k : CState) :
    countsSum (bumpCount c k) = countsSum c + 1 := by
  induction c with
  | nil => rfl
  | cons p rest ih =>
    by_cases hc : p.1 = k
    · show countsSum (bumpCount (p :: rest) k) = _
      rw [show bumpCount (p :: rest) k =
          if p.1 = k then (p.1, p.2 + 1) :: rest else (p.1, p.2) :: bumpCount rest k from rfl]
      rw [if_pos hc]
      simp [countsSum]
      omega
    · rw [show bumpCount (p :: rest) k =
          if p.1 = k then (p.1, p.2 + 1) :: rest else (p.1, p.2) :: bumpCount rest k from rfl]
      rw [if_neg hc]
      simp only [countsSum, List.map_cons, List.sum_cons] at ih ⊢
      omega

theorem peakCounts_fold_sum (l : List CareerRecord) :
    ∀ acc, countsSum (l.foldl (fun acc r => bumpCount acc r.peak) acc) =
      countsSum acc + l.length := by
  induction l with
  | nil => simp
  | cons r t ih =>
    intro acc
    simp only [List.foldl_cons, List.length_cons]
    rw [ih (bumpCount acc r.peak), bumpCount_sum]
    omega

theorem peakCountsOf_sum (l : List CareerRecord) :
    countsSum (peakCountsOf l) = l.length := by
  have h := peakCounts_fold_sum l []
  simpa [peakCountsOf, countsSum] using h

theorem counts_mem_le_sum (c : List (CState × ℕ)) (p : CState × ℕ) (hp : p ∈ c) :
    p.2 ≤ countsSum c := by
  induction c with
  | nil => cases hp
  | cons q rest ih =>
    rcases List.mem_cons.mp hp with hq | hq
    · rw [hq]
      simp [countsSum]
    · have := ih hq
      simp only [countsSum, List.map_cons, List.sum_cons] at this ⊢
      omega

theorem mem_keys_bumpCount (c : List (CState × ℕ)) (k k0 : CState)
    (h : k0 ∈ countKeys (bumpCount c k)) : k0 ∈ countKeys c ∨ k0 = k := by
  induction c with
  | nil =>
    right
    simpa [bumpCount, countKeys] using h
  | cons p rest ih =>
    rw [show bumpCount (p :: rest) k =
        if p.1 = k then (p.1, p.2 + 1) :: rest else (p.1, p.2) :: bumpCount rest k from rfl] at h
    by_cases hc : p.1 = k
    · rw [if_pos hc] at h
      simp only [countKeys, List.map_cons] at h ⊢
      rcases List.mem_cons.mp h with h | h
      · exact Or.inl (List.mem_cons.mpr (Or.inl h))
      · exact Or.inl (List.mem_cons.mpr (Or.inr h))
    · rw [if_neg hc] at h
      simp only [countKeys, List.map_cons] at h ⊢
      rcases List.mem_cons.mp h with h | h
      · exact Or.inl (List.mem_cons.mpr (Or.inl h))
      · rcases ih h with h | h
        · exact Or.inl (List.mem_cons.mpr (Or.inr h))
        · exact Or.inr h

theorem keys_nodup_bumpCount (c : List (CState × ℕ)) (k : CState)
    (h : (countKeys c).Nodup) : (countKeys (bumpCount c k)).Nodup := by
  induction c with
  | nil => simp [bumpCount, countKeys]
  | cons p rest ih =>
    rw [show bumpCount (p :: rest) k =
        if p.1 = k then (p.1, p.2 + 1) :: rest else (p.1, p.2) :: bumpCount rest k from rfl]
    simp only [countKeys, List.map_cons, List.nodup_cons] at h
    by_cases hc : p.1 = k
    · rw [if_pos hc]
      simpa [countKeys, List.nodup_cons] using h
    · rw [if_neg hc]
      simp only [countKeys, List.map_cons, List.nodup_cons]
      refine ⟨fun hmem => ?_, ih h.2⟩
      rcases mem_keys_bumpCount rest k p.1 hmem with hmem | hmem
      · exact h.1 hmem
      · exact hc hmem

theorem keys_nodup_peakCounts (l : List CareerRecord) :
    ∀ acc, (countKeys acc).Nodup →
      (countKeys (l.foldl (fun acc r => bumpCount acc r.peak) acc)).Nodup := by
  induction l with
  | nil => exact fun acc h => h
  | cons r t ih =>
    intro acc h
    exact ih (bumpCount acc r.peak) (keys_nodup_bumpCount acc r.peak h)

theorem mem_keys_peakCounts (l : List CareerRecord) :
    ∀ acc (k0 : CState),
      k0 ∈ countKeys (l.foldl (fun acc r => bumpCount acc r.peak) acc) →
      k0 ∈ countKeys acc ∨ ∃ r ∈ l, k0 = r.peak := by
  induction l with
  | nil => exact fun acc k0 h => Or.inl h
  | cons r t ih =>
    intro acc k0 h
    rcases ih (bumpCount acc r.peak) k0 h with h | h
    · rcases mem_keys_bumpCount acc r.peak k0 h with h | h
      · exact Or.inl h
      · exact Or.inr ⟨r, List.mem_cons_self r t, h⟩
    · obtain ⟨q, hq, he⟩ := h
      exact Or.inr ⟨q, List.mem_cons_of_mem r hq, he⟩

theorem card_CState : Fintype.card CState = 11 := rfl

theorem peakCountsOf_length_le (l : List CareerRecord) :
    (peakCountsOf l).length ≤ 11 := by
  have h1 : (countKeys (peakCountsOf l)).Nodup :=
    keys_nodup_peakCounts l [] (by simp [countKeys])
  have h2 := List.Nodup.length_le_card h1
  rw [card_CState] at h2
  simpa [countKeys] using h2

/-! ## Inversion of the batch and simulation runners -/

theorem mem_careersData (early_spec : Bool) (risk_level : String)
    (my sa : ℤ) (draws : BatchDraws) (n : ℤ) (r : CareerRecord)
    (h : r ∈ careersData early_spec risk_level my sa draws n) :
    ∃ i, r.career =
        (simulate_career (draws i) my sa (CareerProfile.init early_spec risk_level)).1 ∧
      r.peak = get_peak_position r.career := by
  unfold careersData at h
  obtain ⟨i, _, he⟩ := List.mem_map.mp h
  refine ⟨i, ?_, ?_⟩ <;> rw [← he]

theorem run_batch_ok (early_spec : Bool) (risk_level : String) (my sa : ℤ)
    (draws : BatchDraws) (n : ℤ) (b : BatchRaw)
    (h : run_batch early_spec risk_level my sa draws n = Except.ok b) :
    (careersData early_spec risk_level my sa draws n).length ≠ 0 ∧
    b.peak_counts = peakCountsOf (careersData early_spec risk_level my sa draws n) ∧
    b.total = (careersData early_spec risk_level my sa draws n).length ∧
    b.retire_ages = (careersData early_spec risk_level my sa draws n).filterMap (fun r =>
      if r.career.contains CState.retired then
        some (sa + (r.career.findIdx (fun s => s == CState.retired) : ℤ))
      else none) := by
  simp only [run_batch] at h
  split at h
  · exact absurd h (by simp)
  · rename_i hne
    injection h with h
    rw [← h]
    exact ⟨hne, rfl, rfl, rfl⟩

theorem run_simulation_ok (config : SimConfig) (draws : SimDraws) (res : SimResult)
    (h : run_simulation config draws = Except.ok res) :
    ∃ b, run_batch (config.specialization == "early") config.risk_level config.max_years
        config.starting_age (draws 0) config.iterations = Except.ok b ∧
      res.peak_role = b.peak_counts.map (fun p => (p.1, pyRound ((p.2 : ℚ) / (b.total : ℚ)) 4)) ∧
      res.director_mean = pyRound b.director_prob 4 ∧
      res.config.specialization = (if config.specialization == "early" then "early" else "none") ∧
      res.config.risk_level = config.risk_level := by
  simp only [run_simulation] at h
  split at h
  · exact absurd h (by simp)
  · rename_i primary hb
    split at h
    · split at h
      · exact absurd h (by simp)
      · split at h
        · exact absurd h (by simp)
        · exact absurd h (by simp)
        · injection h with h
          exact ⟨primary, hb, by rw [← h]; exact rfl, by rw [← h]; exact rfl,
            by rw [← h]; exact rfl, by rw [← h]; exact rfl⟩
    · injection h with h
      exact ⟨primary, hb, by rw [← h]; exact rfl, by rw [← h]; exact rfl,
        by rw [← h]; exact rfl, by rw [← h]; exact rfl⟩

/-! ## Rounding bounds -/

theorem pyRound_nonneg (x : ℚ) (d : ℕ) (h : 0 ≤ x) : 0 ≤ pyRound x d := by
  unfold pyRound
  apply div_nonneg _ (by positivity)
  rw [round_eq]
  have h1 : (0:ℚ) ≤ x * 10 ^ d + 1 / 2 := by positivity
  exact_mod_cast Int.floor_nonneg.mpr h1

theorem pyRound_le_one (x : ℚ) (d : ℕ) (h : x ≤ 1) : pyRound x d ≤ 1 := by
  unfold pyRound
  rw [div_le_one (by positivity)]
  rw [round_eq]
  have h1 : x * 10 ^ d + 1 / 2 < ((10 ^ d + 1 : ℤ) : ℚ) := by
    push_cast
    nlinarith [pow_pos (show (0:ℚ) < 10 by norm_num) d]
  have h2 := Int.floor_lt.mpr h1
  exact_mod_cast Int.lt_add_one_iff.mp h2

theorem abs_pyRound_sub (x : ℚ) (d : ℕ) :
    |pyRound x d - x| ≤ 1 / (2 * 10 ^ d) := by
  unfold pyRound
  have hp : (0:ℚ) < 10 ^ d := by positivity
  have h1 : (round (x * 10 ^ d) : ℚ) / 10 ^ d - x =
      ((round (x * 10 ^ d) : ℚ) - x * 10 ^ d) / 10 ^ d := by
    field_simp
    ring
  rw [h1, abs_div, abs_of_pos hp]
  rw [div_le_div_iff hp (by positivity)]
  have h2 : |(round (x * 10 ^ d) : ℚ) - x * 10 ^ d| ≤ 1 / 2 := by
    rw [abs_sub_comm]
    exact abs_sub_round (x * 10 ^ d)
  nlinarith [abs_nonneg ((round (x * 10 ^ d) : ℚ) - x * 10 ^ d)]

theorem sum_map_sub_abs_le {α : Type} (l : List α) (f g : α → ℚ) (ε : ℚ)
    (h : ∀ a ∈ l, |f a - g a| ≤ ε) :
    |(l.map f).sum - (l.map g).sum| ≤ l.length * ε := by
  induction l with
  | nil => simp
  | cons a t ih =>
    have ha := h a (List.mem_cons_self a t)
    have ht := ih (fun x hx => h x (List.mem_cons_of_mem a hx))
    simp only [List.map_cons, List.sum_cons, List.length_cons]
    have h1 : f a + (t.map f).sum - (g a + (t.map g).sum) =
        (f a - g a) + ((t.map f).sum - (t.map g).sum) := by ring
    rw [h1]
    calc |(f a - g a) + ((t.map f).sum - (t.map g).sum)|
        ≤ |f a - g a| + |(t.map f).sum - (t.map g).sum| := abs_add _ _
      _ ≤ ε + t.length * ε := add_le_add ha ht
      _ = ((t.length + 1 : ℕ) : ℚ) * ε := by push_cast; ring

theorem sum_map_div (l : List ℚ) (t : ℚ) :
    (l.map (fun x => x / t)).sum = l.sum / t := by
  induction l with
  | nil => simp
  | cons a rest ih => simp [ih, add_div]

/-! ## Claim C4 (amended) and claim C10 -/

/-- C4 (amended) — For every `run_simulation` call that returns, every
value of `distributions.peak_role` lies in `[0, 1]`, and the values sum
to 1 within `11 * 5e-5 = 5.5e-4` (each of the at most 11 reported
values is rounded to 4 decimal places; the pre-rounding distribution
sums to exactly 1).  The spec claims the much tighter `1e-9`, which the
4-decimal rounding of the source violates. -/
theorem claim_C4_peak_role_distribution (config : SimConfig) (draws : SimDraws)
    (res : SimResult) (h : run_simulation config draws = Except.ok res) :
    (∀ kv ∈ res.peak_role, 0 ≤ kv.2 ∧ kv.2 ≤ 1) ∧
    |(List.map Prod.snd res.peak_role).sum - 1| ≤ 11 / 20000 := by
  obtain ⟨b, hb, hpeak, -, -, -⟩ := run_simulation_ok config draws res h
  obtain ⟨hne, hcounts, htotal, -⟩ := run_batch_ok _ _ _ _ _ _ _ hb
  have hlen0 : 0 < (careersData (config.specialization == "early") config.risk_level
      config.max_years config.starting_age (draws 0) config.iterations).length :=
    Nat.pos_of_ne_zero hne
  have htpos : (0:ℚ) < (b.total : ℚ) := by
    rw [htotal]
    exact_mod_cast hlen0
  have hsum : countsSum b.peak_counts = b.total := by
    rw [hcounts, htotal, peakCountsOf_sum]
  have hvalbound : ∀ p ∈ b.peak_counts, (0:ℚ) ≤ (p.2 : ℚ) / (b.total : ℚ) ∧
      (p.2 : ℚ) / (b.total : ℚ) ≤ 1 := by
    intro p hp
    constructor
    · positivity
    · rw [div_le_one htpos]
      have h1 : p.2 ≤ countsSum b.peak_counts := counts_mem_le_sum _ p hp
      rw [hsum] at h1
      exact_mod_cast h1
  constructor
  · intro kv hkv
    rw [hpeak] at hkv
    obtain ⟨p, hp, he⟩ := List.mem_map.mp hkv
    have hb2 := hvalbound p hp
    rw [← he]
    exact ⟨pyRound_nonneg _ 4 hb2.1, pyRound_le_one _ 4 hb2.2⟩
  · rw [hpeak, List.map_map]
    have hcomp : (Prod.snd ∘ fun p : CState × ℕ => (p.1, pyRound ((p.2 : ℚ) / (b.total : ℚ)) 4))
        = (fun p : CState × ℕ => pyRound ((p.2 : ℚ) / (b.total : ℚ)) 4) := rfl
    rw [hcomp]
    have hg : (b.peak_counts.map (fun p : CState × ℕ => ((p.2 : ℚ) / (b.total : ℚ)))).sum = 1 := by
      have h1 : b.peak_counts.map (fun p : CState × ℕ => ((p.2 : ℚ) / (b.total : ℚ)))
          = (b.peak_counts.map (fun p : CState × ℕ => (p.2 : ℚ))).map
              (fun x => x / (b.total : ℚ)) := by
        rw [List.map_map]
        rfl
      rw [h1, sum_map_div]
      have h2 : (b.peak_counts.map (fun p : CState × ℕ => (p.2 : ℚ))).sum
          = (countsSum b.peak_counts : ℚ) := by
        unfold countsSum
        rw [Nat.cast_list_sum, List.map_map]
        rfl
      rw [h2, hsum]
      exact div_self (ne_of_gt htpos)
    have hdiff := sum_map_sub_abs_le b.peak_counts
      (fun p : CState × ℕ => pyRound ((p.2 : ℚ) / (b.total : ℚ)) 4)
      (fun p : CState × ℕ => ((p.2 : ℚ) / (b.total : ℚ)))
      (1 / (2 * 10 ^ 4)) (fun p _ => abs_pyRound_sub _ 4)
    rw [hg] at hdiff
    have hlen : b.peak_counts.length ≤ 11 := by
      rw [hcounts]
      exact peakCountsOf_length_le _
    calc |(b.peak_counts.map
            (fun p : CState × ℕ => pyRound ((p.2 : ℚ) / (b.total : ℚ)) 4)).sum - 1|
        ≤ b.peak_counts.length * (1 / (2 * 10 ^ 4)) := hdiff
      _ ≤ 11 * (1 / (2 * 10 ^ 4)) := by
          apply mul_le_mul_of_nonneg_right _ (by norm_num)
          exact_mod_cast hlen
      _ = 11 / 20000 := by norm_num

/-- C10 — `get_peak_position` never returns Unemployed or Retired and
falls back to Entry Level on rank-0-only careers; consequently the
`peak_role` distribution of any returning `run_simulation` call has no
Unemployed or Retired key. -/
theorem claim_C10_peak_never_unemployed_retired (career : List CState)
    (config : SimConfig) (draws : SimDraws) (res : SimResult)
    (h : run_simulation config draws = Except.ok res) :
    (get_peak_position career ≠ CState.unemployed ∧
      get_peak_position career ≠ CState.retired) ∧
    ((∀ s ∈ career, state_ranks s = 0) → get_peak_position career = CState.entryLevel) ∧
    ∀ kv ∈ res.peak_role, kv.1 ≠ CState.unemployed ∧ kv.1 ≠ CState.retired := by
  refine ⟨get_peak_position_ne career, ?_, ?_⟩
  · intro hz
    unfold get_peak_position
    rw [get_peak_position_aux_zero career hz (0, CState.entryLevel)]
  · intro kv hkv
    obtain ⟨b, hb, hpeak, -, -, -⟩ := run_simulation_ok config draws res h
    obtain ⟨-, hcounts, -, -⟩ := run_batch_ok _ _ _ _ _ _ _ hb
    rw [hpeak] at hkv
    obtain ⟨p, hp, he⟩ := List.mem_map.mp hkv
    have hkey : kv.1 = p.1 := by rw [← he]
    have hkeymem : p.1 ∈ countKeys b.peak_counts :=
      List.mem_map.mpr ⟨p, hp, rfl⟩
    rw [hcounts] at hkeymem
    rcases mem_keys_peakCounts _ [] p.1 hkeymem with hmem | hmem
    · simp [countKeys] at hmem
    · obtain ⟨r, hr, hrp⟩ := hmem
      obtain ⟨i, -, hpk⟩ := mem_careersData _ _ _ _ _ _ r hr
      rw [hkey, hrp, hpk]
      exact get_peak_position_ne r.career

/-! ## Claim C2 (amended): retirement-age bounds -/

theorem retire_age_bounds (early_spec : Bool) (risk_level : String)
    (my sa : ℤ) (draws : BatchDraws) (n : ℤ) (b : BatchRaw)
    (h : run_batch early_spec risk_level my sa draws n = Except.ok b) :
    ∀ a ∈ b.retire_ages, sa + 1 ≤ a ∧ a ≤ sa + my.toNat := by
  obtain ⟨-, -, -, hret⟩ := run_batch_ok _ _ _ _ _ _ _ h
  intro a ha
  rw [hret] at ha
  obtain ⟨r, hr, he⟩ := List.mem_filterMap.mp ha
  by_cases hc : r.career.contains CState.retired
  · rw [if_pos hc] at he
    injection he with he
    obtain ⟨i, hcareer, -⟩ := mem_careersData _ _ _ _ _ _ r hr
    have hmem : CState.retired ∈ r.career := by
      rw [List.contains_iff_exists_mem_beq] at hc
      obtain ⟨x, hx, hbeq⟩ := hc
      have hxe : CState.retired = x := by simpa using hbeq
      rw [← hxe] at hx
      exact hx
    have hlt : r.career.findIdx (fun s => s == CState.retired) < r.career.length :=
      List.findIdx_lt_length_of_exists ⟨CState.retired, hmem, by simp⟩
    have hlen : r.career.length = my.toNat + 1 := by
      rw [hcareer, simulate_career_length]
    have hpos : 1 ≤ r.career.findIdx (fun s => s == CState.retired) := by
      rw [hcareer, simulate_career_fst, List.findIdx_cons,
        show (CState.entryLevel == CState.retired) = false from rfl, Bool.cond_false]
      omega
    rw [← he]
    constructor
    · omega
    · have h2 : r.career.findIdx (fun s => s == CState.retired) ≤ my.toNat := by omega
      have h3 : (r.career.findIdx (fun s => s == CState.retired) : ℤ) ≤ (my.toNat : ℤ) := by
        exact_mod_cast h2
      omega
  · rw [if_neg hc] at he
    cases he

/-- C2 (amended) — Every retirement age reported by `run_batch` with
`starting_age = 22`, `max_years = 45` lies in `[23, 67]`: the upper
bound `starting_age + max_years` of the claim holds, but the lower
bound is `starting_age + 1`, not 55 — the 55 floor only gates the
Bernoulli retirement trial, while the transition table itself can move
Unemployed or C-Suite to Retired at any age. -/
theorem claim_C2_retire_age_bounds (early_spec : Bool) (risk_level : String)
    (draws : BatchDraws) (n : ℤ) (b : BatchRaw)
    (h : run_batch early_spec risk_level 45 22 draws n = Except.ok b) :
    ∀ a ∈ b.retire_ages, 23 ≤ a ∧ a ≤ 67 := by
  intro a ha
  have := retire_age_bounds early_spec risk_level 45 22 draws n b h a ha
  norm_num at this
  exact this

/-! ## Claim C5: comparative analysis wiring -/

/-- C5 — `run_comparative_analysis` runs exactly the three fixed
configurations control (none/medium), specialist (early/medium) and
risktaker (none/high) through `run_simulation`, and reports
`deltas.specialist_vs_control = round(specialist.mean − control.mean, 4)`
and likewise for risktaker, on the reported means. -/
theorem claim_C5_comparative_deltas (iterations : ℤ) (compute_ci : Bool)
    (dControl dSpecialist dRisktaker : SimDraws) (res : CompResult)
    (h : run_comparative_analysis iterations compute_ci dControl dSpecialist dRisktaker
        = Except.ok res) :
    run_simulation (controlConfig iterations compute_ci) dControl = Except.ok res.control ∧
    run_simulation (specialistConfig iterations compute_ci) dSpecialist = Except.ok res.specialist ∧
    run_simulation (risktakerConfig iterations compute_ci) dRisktaker = Except.ok res.risktaker ∧
    res.control.config.specialization = "none" ∧
    res.control.config.risk_level = "medium" ∧
    res.specialist.config.specialization = "early" ∧
    res.specialist.config.risk_level = "medium" ∧
    res.risktaker.config.specialization = "none" ∧
    res.risktaker.config.risk_level = "high" ∧
    res.specialist_vs_control =
      pyRound (res.specialist.director_mean - res.control.director_mean) 4 ∧
    res.risktaker_vs_control =
      pyRound (res.risktaker.director_mean - res.control.director_mean) 4 := by
  simp only [run_comparative_analysis] at h
  split at h
  · exact absurd h (by simp)
  · rename_i control hC
    split at h
    · exact absurd h (by simp)
    · rename_i specialist hS
      split at h
      · exact absurd h (by simp)
      · rename_i risktaker hR
        injection h with h
        subst h
        obtain ⟨-, -, -, -, hc1, hc2⟩ := run_simulation_ok _ _ _ hC
        obtain ⟨-, -, -, -, hs1, hs2⟩ := run_simulation_ok _ _ _ hS
        obtain ⟨-, -, -, -, hr1, hr2⟩ := run_simulation_ok _ _ _ hR
        refine ⟨hC, hS, hR, ?_, ?_, ?_, ?_, ?_, ?_, rfl, rfl⟩ <;> dsimp only
        · rw [hc1]
          exact rfl
        · rw [hc2]
          exact rfl
        · rw [hs1]
          exact rfl
        · rw [hs2]
          exact rfl
        · rw [hr1]
          exact rfl
        · rw [hr2]
          exact rfl

/-! ## Concrete runs -/

set_option maxRecDepth 40000

theorem simulateStep_succ (d : YearDraws) (sa : ℤ) (n y : ℕ) (c : CState)
    (p : CareerProfile) :
    simulateStep d sa (n + 1) y c p =
      ((yearStep d sa y c p).1 ::
        (simulateStep d sa n (y + 1) (yearStep d sa y c p).1 (yearStep d sa y c p).2).1,
       (simulateStep d sa n (y + 1) (yearStep d sa y c p).1 (yearStep d sa y c p).2).2) := rfl

theorem pyRound_eval (x : ℚ) (d : ℕ) (z : ℤ) (h1 : (z : ℚ) ≤ x * 10 ^ d + 1 / 2)
    (h2 : x * 10 ^ d + 1 / 2 < z + 1) : pyRound x d = (z : ℚ) / 10 ^ d := by
  unfold pyRound
  rw [round_eq]
  congr 1
  have h3 : ⌊x * 10 ^ d + 1 / 2⌋ = z := by
    rw [Int.floor_eq_iff]
    · exact ⟨h1, by exact_mod_cast h2⟩
  rw [h3]

/-- The draw stream of the concrete Retired-at-24 run: year 0 picks the
Unemployed transition (`c = 0.9`), year 1 picks the Retired transition
out of Unemployed (`c = 0.99`); the retirement Bernoulli draw 0.5 never
fires because the probability is 0 below age 55. -/
def dYearCX : YearDraws := fun y => if y = 0 then ((1:ℚ)/2, 9/10) else (1/2, 99/100)

def dBatchCX : BatchDraws := fun _ => dYearCX

def dSimCX : SimDraws := fun _ => dBatchCX

/-- The profile after the year-0 demotion Entry Level → Unemployed. -/
def profU : CareerProfile :=
  { early_specialization := false, risk_tolerance := "medium"
    unemployment_history := [0], burnout_score := 0, momentum_score := 0
    total_demotions := 1, total_promotions := 0 }

theorem ev_ctrl_y0 :
    yearStep dYearCX 22 0 CState.entryLevel (CareerProfile.init false "medium")
      = (CState.unemployed, profU) := by
  simp [yearStep, dYearCX, CareerProfile.init, CareerProfile.update_burnout,
    CareerProfile.update_momentum, get_retirement_probability, retirementScore,
    stress_levels, state_ranks, apply_decision_modifiers, specStep, riskStep,
    normalizeStep, rowScaleKeyOrAdd, rowScaleKeys, rowSet, rowGet, rowMem, rowSum,
    TRANSITIONS, weightedChoice, pickIndex, profU, max_def, min_def] <;>
  (first
    | norm_num [yearStep, dYearCX, CareerProfile.init, CareerProfile.update_burnout,
        CareerProfile.update_momentum, get_retirement_probability, retirementScore,
        stress_levels, state_ranks, apply_decision_modifiers, specStep, riskStep,
        normalizeStep, rowScaleKeyOrAdd, rowScaleKeys, rowSet, rowGet, rowMem, rowSum,
        TRANSITIONS, weightedChoice, pickIndex, profU, max_def, min_def]
    | skip) <;>
  (first | decide | skip)

theorem ev_ctrl_y1 :
    yearStep dYearCX 22 (0 + 1) CState.unemployed profU = (CState.retired, profU) := by
  simp [yearStep, dYearCX, CareerProfile.init, CareerProfile.update_burnout,
    CareerProfile.update_momentum, get_retirement_probability, retirementScore,
    stress_levels, state_ranks, apply_decision_modifiers, specStep, riskStep,
    normalizeStep, rowScaleKeyOrAdd, rowScaleKeys, rowSet, rowGet, rowMem, rowSum,
    TRANSITIONS, weightedChoice, pickIndex, profU, max_def, min_def] <;>
  (first
    | norm_num [yearStep, dYearCX, CareerProfile.init, CareerProfile.update_burnout,
        CareerProfile.update_momentum, get_retirement_probability, retirementScore,
        stress_levels, state_ranks, apply_decision_modifiers, specStep, riskStep,
        normalizeStep, rowScaleKeyOrAdd, rowScaleKeys, rowSet, rowGet, rowMem, rowSum,
        TRANSITIONS, weightedChoice, pickIndex, profU, max_def, min_def]
    | skip) <;>
  (first | decide | skip)

/-- The concrete control trajectory: Entry Level, Unemployed at year 0,
Retired at year 1, then absorbed for the remaining 43 years. -/
theorem ev_ctrl_career :
    simulate_career dYearCX 45 22 (CareerProfile.init false "medium") =
      (CState.entryLevel :: CState.unemployed :: CState.retired ::
        List.replicate 43 CState.retired, profU) := by
  unfold simulate_career
  rw [show (45:ℤ).toNat = 44 + 1 from rfl, simulateStep_succ, ev_ctrl_y0]
  dsimp only
  rw [show (44:ℕ) = 43 + 1 from rfl, simulateStep_succ, ev_ctrl_y1]
  dsimp only
  rw [simulateStep_retired]

theorem ev_ctrl_record :
    careersData false "medium" 45 22 dBatchCX 1 =
      [{ career := CState.entryLevel :: CState.unemployed :: CState.retired ::
            List.replicate 43 CState.retired
         peak := CState.entryLevel
         profile := profU
         final_state := CState.retired }] := by
  unfold careersData
  rw [show (1:ℤ).toNat = 1 from rfl, show List.range 1 = [0] from rfl]
  rw [List.map_cons, List.map_nil, show dBatchCX 0 = dYearCX from rfl]
  dsimp only
  rw [ev_ctrl_career]
  dsimp only
  rw [show get_peak_position (CState.entryLevel :: CState.unemployed :: CState.retired ::
        List.replicate 43 CState.retired) = CState.entryLevel from by decide,
    show (CState.entryLevel :: CState.unemployed :: CState.retired ::
        List.replicate 43 CState.retired).getLastD CState.entryLevel = CState.retired
      from by decide]

/-- The raw aggregates of the concrete control batch: the single career
retires at age 24. -/
def bCX : BatchRaw :=
  { director_prob := 0, retire_ages := [24], unemployment_durations := [1]
    peak_counts := [(CState.entryLevel, 1)], total := 1 }

theorem ev_ctrl_batch :
    run_batch false "medium" 45 22 dBatchCX 1 = Except.ok bCX := by
  simp only [run_batch, ev_ctrl_record]
  rw [if_neg (by decide)]
  refine congrArg Except.ok ?_
  unfold bCX
  congr 1
  all_goals first
    | decide
    | norm_num [state_ranks]

/-- C2 counterexample — the concrete batch above reports the retirement
age 24, violating the claimed hard floor of 55. -/
theorem claim_C2_counterexample :
    run_batch false "medium" 45 22 dBatchCX 1 = Except.ok bCX ∧
    bCX.retire_ages = [24] ∧
    ¬ (∀ a ∈ bCX.retire_ages, 55 ≤ a ∧ a ≤ 67) := by
  refine ⟨ev_ctrl_batch, rfl, ?_⟩
  intro hall
  have := (hall 24 (by decide)).1
  omega

/-- C2 witness — the amended bounds applied to the concrete batch. -/
theorem claim_C2_witness :
    run_batch false "medium" 45 22 dBatchCX 1 = Except.ok bCX ∧
    23 ≤ (24:ℤ) ∧ (24:ℤ) ≤ 67 :=
  ⟨ev_ctrl_batch,
    (claim_C2_retire_age_bounds false "medium" dBatchCX 1 bCX ev_ctrl_batch 24 (by decide)).1,
    (claim_C2_retire_age_bounds false "medium" dBatchCX 1 bCX ev_ctrl_batch 24 (by decide)).2⟩

/-- C1 — `run_simulation` performs no configuration validation: with
`iterations = 0` it fails with the `ZeroDivisionError` of
`director_plus_count / len(careers_data)` (after, not before, the empty
batch loop), not with a configuration error; and an unrecognized
`risk_level` string is silently treated exactly like "medium" by the
transition modifier (here at the Unemployed state, where "high" and
"low" would both change the row). -/
theorem claim_C1_no_fail_fast_config_validation :
    run_simulation { iterations := 0 } (fun _ _ _ => (1/2, 1/2)) =
      Except.error "ZeroDivisionError" ∧
    apply_decision_modifiers (CareerProfile.init false "turbo")
        (TRANSITIONS CState.unemployed) CState.unemployed 0 =
      apply_decision_modifiers (CareerProfile.init false "medium")
        (TRANSITIONS CState.unemployed) CState.unemployed 0 := by
  constructor
  · rfl
  · simp only [apply_decision_modifiers, CareerProfile.init]
    rw [riskStep_other "turbo" _ _ (by decide) (by decide),
      riskStep_other "medium" _ _ (by decide) (by decide)]

/-- C3 — With a degenerate row whose modified total is 0,
`apply_decision_modifiers` silently returns the unnormalized zero row
(its `if total > 0` guard has no raising else-branch), instead of the
hard failure the spec demands. -/
theorem claim_C3_degenerate_row_silent_return :
    apply_decision_modifiers (CareerProfile.init false "medium")
        [(CState.entryLevel, 0)] CState.entryLevel 0 = [(CState.entryLevel, 0)] ∧
    rowSum (apply_decision_modifiers (CareerProfile.init false "medium")
        [(CState.entryLevel, 0)] CState.entryLevel 0) = 0 := by
  have h : apply_decision_modifiers (CareerProfile.init false "medium")
      [(CState.entryLevel, 0)] CState.entryLevel 0 = [(CState.entryLevel, 0)] := by
    simp [apply_decision_modifiers, CareerProfile.init, specStep, riskStep,
      normalizeStep, rowSum] <;> norm_num
  exact ⟨h, by rw [h]; simp [rowSum]⟩

/-! ## Concrete three-peak run (iterations 3, max_years 1) -/

theorem ev_round_zero (d : ℕ) : pyRound 0 d = 0 := by
  unfold pyRound
  simp

theorem ev_round_third : pyRound ((1:ℚ)/3) 4 = 3333/10000 := by
  rw [pyRound_eval ((1:ℚ)/3) 4 3333 (by norm_num) (by norm_num)]
  norm_num

/-- Iteration draws of the three-peak batch: careers 0, 1, 2 choose the
Entry Level self-loop, the Junior promotion and the Mid-Level jump. -/
def dSimW : SimDraws :=
  fun _ i _ => ((1:ℚ)/2, if i = 0 then 1/10 else if i = 1 then 1/2 else 39/50)

def cfgW : SimConfig :=
  { specialization := "none", risk_level := "medium", iterations := 3
    max_years := 1, starting_age := 22, compute_ci := false, ci_iterations := 30 }

/-- Profile after one promoted year (momentum `2 * 0.9`). -/
def profW1 : CareerProfile :=
  { early_specialization := false, risk_tolerance := "medium"
    unemployment_history := [], burnout_score := 0, momentum_score := 9/5
    total_demotions := 0, total_promotions := 1 }

theorem ev_w_y0a :
    yearStep (dSimW 0 0) 22 0 CState.entryLevel (CareerProfile.init false "medium")
      = (CState.entryLevel, CareerProfile.init false "medium") := by
  simp [yearStep, dSimW, CareerProfile.init, CareerProfile.update_burnout,
    CareerProfile.update_momentum, get_retirement_probability, retirementScore,
    stress_levels, state_ranks, apply_decision_modifiers, specStep, riskStep,
    normalizeStep, rowScaleKeyOrAdd, rowScaleKeys, rowSet, rowGet, rowMem, rowSum,
    TRANSITIONS, weightedChoice, pickIndex, max_def, min_def] <;>
  (first
    | norm_num [yearStep, dSimW, CareerProfile.init, CareerProfile.update_burnout,
        CareerProfile.update_momentum, get_retirement_probability, retirementScore,
        stress_levels, state_ranks, apply_decision_modifiers, specStep, riskStep,
        normalizeStep, rowScaleKeyOrAdd, rowScaleKeys, rowSet, rowGet, rowMem, rowSum,
        TRANSITIONS, weightedChoice, pickIndex, max_def, min_def]
    | skip) <;>
  (first | decide | skip)

theorem ev_w_y0b :
    yearStep (dSimW 0 1) 22 0 CState.entryLevel (CareerProfile.init false "medium")
      = (CState.junior, profW1) := by
  simp [yearStep, dSimW, CareerProfile.init, CareerProfile.update_burnout,
    CareerProfile.update_momentum, get_retirement_probability, retirementScore,
    stress_levels, state_ranks, apply_decision_modifiers, specStep, riskStep,
    normalizeStep, rowScaleKeyOrAdd, rowScaleKeys, rowSet, rowGet, rowMem, rowSum,
    TRANSITIONS, weightedChoice, pickIndex, profW1, max_def, min_def] <;>
  (first
    | norm_num [yearStep, dSimW, CareerProfile.init, CareerProfile.update_burnout,
        CareerProfile.update_momentum, get_retirement_probability, retirementScore,
        stress_levels, state_ranks, apply_decision_modifiers, specStep, riskStep,
        normalizeStep, rowScaleKeyOrAdd, rowScaleKeys, rowSet, rowGet, rowMem, rowSum,
        TRANSITIONS, weightedChoice, pickIndex, profW1, max_def, min_def]
    | skip) <;>
  (first | decide | skip)

theorem ev_w_y0c :
    yearStep (dSimW 0 2) 22 0 CState.entryLevel (CareerProfile.init false "medium")
      = (CState.midLevel, profW1) := by
  simp [yearStep, dSimW, CareerProfile.init, CareerProfile.update_burnout,
    CareerProfile.update_momentum, get_retirement_probability, retirementScore,
    stress_levels, state_ranks, apply_decision_modifiers, specStep, riskStep,
    normalizeStep, rowScaleKeyOrAdd, rowScaleKeys, rowSet, rowGet, rowMem, rowSum,
    TRANSITIONS, weightedChoice, pickIndex, profW1, max_def, min_def] <;>
  (first
    | norm_num [yearStep, dSimW, CareerProfile.init, CareerProfile.update_burnout,
        CareerProfile.update_momentum, get_retirement_probability, retirementScore,
        stress_levels, state_ranks, apply_decision_modifiers, specStep, riskStep,
        normalizeStep, rowScaleKeyOrAdd, rowScaleKeys, rowSet, rowGet, rowMem, rowSum,
        TRANSITIONS, weightedChoice, pickIndex, profW1, max_def, min_def]
    | skip) <;>
  (first | decide | skip)

theorem ev_w_career0 :
    simulate_career (dSimW 0 0) 1 22 (CareerProfile.init false "medium") =
      ([CState.entryLevel, CState.entryLevel], CareerProfile.init false "medium") := by
  unfold simulate_career
  rw [show (1:ℤ).toNat = 0 + 1 from rfl, simulateStep_succ, ev_w_y0a]
  dsimp only
  rfl

theorem ev_w_career1 :
    simulate_career (dSimW 0 1) 1 22 (CareerProfile.init false "medium") =
      ([CState.entryLevel, CState.junior], profW1) := by
  unfold simulate_career
  rw [show (1:ℤ).toNat = 0 + 1 from rfl, simulateStep_succ, ev_w_y0b]
  dsimp only
  rfl

theorem ev_w_career2 :
    simulate_career (dSimW 0 2) 1 22 (CareerProfile.init false "medium") =
      ([CState.entryLevel, CState.midLevel], profW1) := by
  unfold simulate_career
  rw [show (1:ℤ).toNat = 0 + 1 from rfl, simulateStep_succ, ev_w_y0c]
  dsimp only
  rfl

theorem ev_w_record :
    careersData false "medium" 1 22 (dSimW 0) 3 =
      [{ career := [CState.entryLevel, CState.entryLevel]
         peak := CState.entryLevel
         profile := CareerProfile.init false "medium"
         final_state := CState.entryLevel },
       { career := [CState.entryLevel, CState.junior]
         peak := CState.junior
         profile := profW1
         final_state := CState.junior },
       { career := [CState.entryLevel, CState.midLevel]
         peak := CState.midLevel
         profile := profW1
         final_state := CState.midLevel }] := by
  unfold careersData
  rw [show (3:ℤ).toNat = 3 from rfl, show List.range 3 = [0, 1, 2] from rfl]
  rw [List.map_cons, List.map_cons, List.map_cons, List.map_nil]
  dsimp only
  rw [ev_w_career0, ev_w_career1, ev_w_career2]
  dsimp only
  rw [show get_peak_position [CState.entryLevel, CState.entryLevel] = CState.entryLevel
        from by decide,
    show get_peak_position [CState.entryLevel, CState.junior] = CState.junior
        from by decide,
    show get_peak_position [CState.entryLevel, CState.midLevel] = CState.midLevel
        from by decide,
    show [CState.entryLevel, CState.entryLevel].getLastD CState.entryLevel = CState.entryLevel
        from by decide,
    show [CState.entryLevel, CState.junior].getLastD CState.entryLevel = CState.junior
        from by decide,
    show [CState.entryLevel, CState.midLevel].getLastD CState.entryLevel = CState.midLevel
        from by decide]

/-- Raw aggregates of the three-peak batch. -/
def bW : BatchRaw :=
  { director_prob := 0, retire_ages := [], unemployment_durations := [0, 0, 0]
    peak_counts := [(CState.entryLevel, 1), (CState.junior, 1), (CState.midLevel, 1)]
    total := 3 }

theorem ev_w_batch :
    run_batch false "medium" 1 22 (dSimW 0) 3 = Except.ok bW := by
  simp only [run_batch, ev_w_record]
  rw [if_neg (by decide)]
  refine congrArg Except.ok ?_
  unfold bW
  congr 1
  all_goals first
    | decide
    | norm_num [state_ranks]

/-- The reported result of the three-peak run: each peak role gets
`round(1/3, 4) = 0.3333`, so the reported distribution sums to 0.9999. -/
def resW : SimResult :=
  { director_mean := 0
    director_ci_lower := none
    director_ci_upper := none
    retirement_age_mean := none
    unemployment_mean := 0
    unemployment_median := some 0
    peak_role := [(CState.entryLevel, 3333/10000), (CState.junior, 3333/10000),
      (CState.midLevel, 3333/10000)]
    total_simulations := 3
    config := { specialization := "none", risk_level := "medium", iterations := 3
                max_years := 1, starting_age := 22, compute_ci := false } }

theorem ev_w_sim : run_simulation cfgW dSimW = Except.ok resW := by
  simp only [run_simulation, cfgW]
  rw [show (("none" : String) == "early") = false from rfl]
  rw [ev_w_batch]
  refine congrArg Except.ok ?_
  unfold buildResult bW resW
  congr 1
  · exact ev_round_zero 4
  · norm_num [npMean, npMedian, sortQ, insertSorted, ev_round_zero]
  · norm_num [npMean, npMedian, sortQ, insertSorted, ev_round_zero]
  · norm_num [ev_round_third]

/-- C4 counterexample — the concrete three-peak run reports the
distribution `{0.3333, 0.3333, 0.3333}` whose sum 0.9999 misses 1.0 by
`1e-4`, far outside the claimed `1e-9` tolerance. -/
theorem claim_C4_counterexample :
    run_simulation cfgW dSimW = Except.ok resW ∧
    ¬ ((∀ kv ∈ resW.peak_role, 0 ≤ kv.2 ∧ kv.2 ≤ 1) ∧
      |(List.map Prod.snd resW.peak_role).sum - 1| ≤ 1/1000000000) := by
  refine ⟨ev_w_sim, ?_⟩
  intro hcl
  have h2 := hcl.2
  norm_num [resW] at h2
  rw [abs_of_pos (by norm_num : (0:ℚ) < 1/10000)] at h2
  norm_num at h2

/-- C4 witness — the amended bounds applied to the concrete three-peak
run. -/
theorem claim_C4_witness :
    run_simulation cfgW dSimW = Except.ok resW ∧
    |(List.map Prod.snd resW.peak_role).sum - 1| ≤ 11 / 20000 :=
  ⟨ev_w_sim, (claim_C4_peak_role_distribution cfgW dSimW resW ev_w_sim).2⟩

/-- C10 witness — a rank-0-only career falls back to Entry Level and is
never reported as Unemployed, applied together with the concrete run. -/
theorem claim_C10_witness :
    get_peak_position [CState.unemployed] = CState.entryLevel ∧
    get_peak_position [CState.unemployed] ≠ CState.unemployed :=
  ⟨(claim_C10_peak_never_unemployed_retired [CState.unemployed] cfgW dSimW resW
      ev_w_sim).2.1 (by decide),
    (claim_C10_peak_never_unemployed_retired [CState.unemployed] cfgW dSimW resW
      ev_w_sim).1.1⟩

/-! ## Concrete comparative run (iterations 1, max_years 45) -/

theorem ev_round_24 : pyRound (24:ℚ) 2 = 24 := by
  rw [pyRound_eval 24 2 2400 (by norm_num) (by norm_num)]
  norm_num

theorem ev_round_1_2 : pyRound (1:ℚ) 2 = 1 := by
  rw [pyRound_eval 1 2 100 (by norm_num) (by norm_num)]
  norm_num

theorem ev_round_1_4 : pyRound (1:ℚ) 4 = 1 := by
  rw [pyRound_eval 1 4 10000 (by norm_num) (by norm_num)]
  norm_num

/-- Specialist profile after the year-0 demotion. -/
def profUS : CareerProfile :=
  { early_specialization := true, risk_tolerance := "medium"
    unemployment_history := [0], burnout_score := 0, momentum_score := 0
    total_demotions := 1, total_promotions := 0 }

/-- Risk-taker profile after the year-0 demotion. -/
def profUR : CareerProfile :=
  { early_specialization := false, risk_tolerance := "high"
    unemployment_history := [0], burnout_score := 0, momentum_score := 0
    total_demotions := 1, total_promotions := 0 }

theorem ev_spec_y0 :
    yearStep dYearCX 22 0 CState.entryLevel (CareerProfile.init true "medium")
      = (CState.unemployed, profUS) := by
  simp [yearStep, dYearCX, CareerProfile.init, CareerProfile.update_burnout,
    CareerProfile.update_momentum, get_retirement_probability, retirementScore,
    stress_levels, state_ranks, apply_decision_modifiers, specStep, riskStep,
    normalizeStep, rowScaleKeyOrAdd, rowScaleKeys, rowSet, rowGet, rowMem, rowSum,
    TRANSITIONS, weightedChoice, pickIndex, profUS, max_def, min_def] <;>
  (first
    | norm_num [yearStep, dYearCX, CareerProfile.init, CareerProfile.update_burnout,
        CareerProfile.update_momentum, get_retirement_probability, retirementScore,
        stress_levels, state_ranks, apply_decision_modifiers, specStep, riskStep,
        normalizeStep, rowScaleKeyOrAdd, rowScaleKeys, rowSet, rowGet, rowMem, rowSum,
        TRANSITIONS, weightedChoice, pickIndex, profUS, max_def, min_def]
    | skip) <;>
  (first | decide | skip)

theorem ev_spec_y1 :
    yearStep dYearCX 22 (0 + 1) CState.unemployed profUS = (CState.retired, profUS) := by
  simp [yearStep, dYearCX, CareerProfile.init, CareerProfile.update_burnout,
    CareerProfile.update_momentum, get_retirement_probability, retirementScore,
    stress_levels, state_ranks, apply_decision_modifiers, specStep, riskStep,
    normalizeStep, rowScaleKeyOrAdd, rowScaleKeys, rowSet, rowGet, rowMem, rowSum,
    TRANSITIONS, weightedChoice, pickIndex, profUS, max_def, min_def] <;>
  (first
    | norm_num [yearStep, dYearCX, CareerProfile.init, CareerProfile.update_burnout,
        CareerProfile.update_momentum, get_retirement_probability, retirementScore,
        stress_levels, state_ranks, apply_decision_modifiers, specStep, riskStep,
        normalizeStep, rowScaleKeyOrAdd, rowScaleKeys, rowSet, rowGet, rowMem, rowSum,
        TRANSITIONS, weightedChoice, pickIndex, profUS, max_def, min_def]
    | skip) <;>
  (first | decide | skip)

theorem ev_risk_y0 :
    yearStep dYearCX 22 0 CState.entryLevel (CareerProfile.init false "high")
      = (CState.unemployed, profUR) := by
  simp [yearStep, dYearCX, CareerProfile.init, CareerProfile.update_burnout,
    CareerProfile.update_momentum, get_retirement_probability, retirementScore,
    stress_levels, state_ranks, apply_decision_modifiers, specStep, riskStep,
    normalizeStep, rowScaleKeyOrAdd, rowScaleKeys, rowSet, rowGet, rowMem, rowSum,
    TRANSITIONS, weightedChoice, pickIndex, profUR, max_def, min_def] <;>
  (first
    | norm_num [yearStep, dYearCX, CareerProfile.init, CareerProfile.update_burnout,
        CareerProfile.update_momentum, get_retirement_probability, retirementScore,
        stress_levels, state_ranks, apply_decision_modifiers, specStep, riskStep,
        normalizeStep, rowScaleKeyOrAdd, rowScaleKeys, rowSet, rowGet, rowMem, rowSum,
        TRANSITIONS, weightedChoice, pickIndex, profUR, max_def, min_def]
    | skip) <;>
  (first | decide | skip)

theorem ev_risk_y1 :
    yearStep dYearCX 22 (0 + 1) CState.unemployed profUR = (CState.retired, profUR) := by
  simp [yearStep, dYearCX, CareerProfile.init, CareerProfile.update_burnout,
    CareerProfile.update_momentum, get_retirement_probability, retirementScore,
    stress_levels, state_ranks, apply_decision_modifiers, specStep, riskStep,
    normalizeStep, rowScaleKeyOrAdd, rowScaleKeys, rowSet, rowGet, rowMem, rowSum,
    TRANSITIONS, weightedChoice, pickIndex, profUR, max_def, min_def] <;>
  (first
    | norm_num [yearStep, dYearCX, CareerProfile.init, CareerProfile.update_burnout,
        CareerProfile.update_momentum, get_retirement_probability, retirementScore,
        stress_levels, state_ranks, apply_decision_modifiers, specStep, riskStep,
        normalizeStep, rowScaleKeyOrAdd, rowScaleKeys, rowSet, rowGet, rowMem, rowSum,
        TRANSITIONS, weightedChoice, pickIndex, profUR, max_def, min_def]
    | skip) <;>
  (first | decide | skip)

theorem ev_spec_career :
    simulate_career dYearCX 45 22 (CareerProfile.init true "medium") =
      (CState.entryLevel :: CState.unemployed :: CState.retired ::
        List.replicate 43 CState.retired, profUS) := by
  unfold simulate_career
  rw [show (45:ℤ).toNat = 44 + 1 from rfl, simulateStep_succ, ev_spec_y0]
  dsimp only
  rw [show (44:ℕ) = 43 + 1 from rfl, simulateStep_succ, ev_spec_y1]
  dsimp only
  rw [simulateStep_retired]

theorem ev_risk_career :
    simulate_career dYearCX 45 22 (CareerProfile.init false "high") =
      (CState.entryLevel :: CState.unemployed :: CState.retired ::
        List.replicate 43 CState.retired, profUR) := by
  unfold simulate_career
  rw [show (45:ℤ).toNat = 44 + 1 from rfl, simulateStep_succ, ev_risk_y0]
  dsimp only
  rw [show (44:ℕ) = 43 + 1 from rfl, simulateStep_succ, ev_risk_y1]
  dsimp only
  rw [simulateStep_retired]

theorem ev_spec_record :
    careersData true "medium" 45 22 dBatchCX 1 =
      [{ career := CState.entryLevel :: CState.unemployed :: CState.retired ::
            List.replicate 43 CState.retired
         peak := CState.entryLevel
         profile := profUS
         final_state := CState.retired }] := by
  unfold careersData
  rw [show (1:ℤ).toNat = 1 from rfl, show List.range 1 = [0] from rfl]
  rw [List.map_cons, List.map_nil, show dBatchCX 0 = dYearCX from rfl]
  dsimp only
  rw [ev_spec_career]
  dsimp only
  rw [show get_peak_position (CState.entryLevel :: CState.unemployed :: CState.retired ::
        List.replicate 43 CState.retired) = CState.entryLevel from by decide,
    show (CState.entryLevel :: CState.unemployed :: CState.retired ::
        List.replicate 43 CState.retired).getLastD CState.entryLevel = CState.retired
      from by decide]

theorem ev_risk_record :
    careersData false "high" 45 22 dBatchCX 1 =
      [{ career := CState.entryLevel :: CState.unemployed :: CState.retired ::
            List.replicate 43 CState.retired
         peak := CState.entryLevel
         profile := profUR
         final_state := CState.retired }] := by
  unfold careersData
  rw [show (1:ℤ).toNat = 1 from rfl, show List.range 1 = [0] from rfl]
  rw [List.map_cons, List.map_nil, show dBatchCX 0 = dYearCX from rfl]
  dsimp only
  rw [ev_risk_career]
  dsimp only
  rw [show get_peak_position (CState.entryLevel :: CState.unemployed :: CState.retired ::
        List.replicate 43 CState.retired) = CState.entryLevel from by decide,
    show (CState.entryLevel :: CState.unemployed :: CState.retired ::
        List.replicate 43 CState.retired).getLastD CState.entryLevel = CState.retired
      from by decide]

theorem ev_spec_batch :
    run_batch true "medium" 45 22 dBatchCX 1 = Except.ok bCX := by
  simp only [run_batch, ev_spec_record]
  rw [if_neg (by decide)]
  refine congrArg Except.ok ?_
  unfold bCX
  congr 1
  all_goals first
    | decide
    | norm_num [state_ranks]

theorem ev_risk_batch :
    run_batch false "high" 45 22 dBatchCX 1 = Except.ok bCX := by
  simp only [run_batch, ev_risk_record]
  rw [if_neg (by decide)]
  refine congrArg Except.ok ?_
  unfold bCX
  congr 1
  all_goals first
    | decide
    | norm_num [state_ranks]

/-- The reported control result of the 1-iteration comparative run. -/
def simCtrl : SimResult :=
  { director_mean := 0, director_ci_lower := none, director_ci_upper := none
    retirement_age_mean := some 24, unemployment_mean := 1
    unemployment_median := some 1, peak_role := [(CState.entryLevel, 1)]
    total_simulations := 1
    config := { specialization := "none", risk_level := "medium", iterations := 1
                max_years := 45, starting_age := 22, compute_ci := false } }

def simSpec : SimResult :=
  { director_mean := 0, director_ci_lower := none, director_ci_upper := none
    retirement_age_mean := some 24, unemployment_mean := 1
    unemployment_median := some 1, peak_role := [(CState.entryLevel, 1)]
    total_simulations := 1
    config := { specialization := "early", risk_level := "medium", iterations := 1
                max_years := 45, starting_age := 22, compute_ci := false } }

def simRisk : SimResult :=
  { director_mean := 0, director_ci_lower := none, director_ci_upper := none
    retirement_age_mean := some 24, unemployment_mean := 1
    unemployment_median := some 1, peak_role := [(CState.entryLevel, 1)]
    total_simulations := 1
    config := { specialization := "none", risk_level := "high", iterations := 1
                max_years := 45, starting_age := 22, compute_ci := false } }

theorem ev_sim_ctrl :
    run_simulation (controlConfig 1 false) dSimCX = Except.ok simCtrl := by
  simp only [run_simulation, controlConfig]
  rw [show (("none" : String) == "early") = false from rfl]
  rw [show dSimCX 0 = dBatchCX from rfl, ev_ctrl_batch]
  refine congrArg Except.ok ?_
  unfold buildResult bCX simCtrl
  congr 1
  all_goals first
    | rfl
    | exact ev_round_zero 4
    | norm_num [npMean, npMedian, sortQ, insertSorted, ev_round_24, ev_round_1_2,
        ev_round_1_4]

theorem ev_sim_spec :
    run_simulation (specialistConfig 1 false) dSimCX = Except.ok simSpec := by
  simp only [run_simulation, specialistConfig]
  rw [show (("early" : String) == "early") = true from rfl]
  rw [show dSimCX 0 = dBatchCX from rfl, ev_spec_batch]
  refine congrArg Except.ok ?_
  unfold buildResult bCX simSpec
  congr 1
  all_goals first
    | rfl
    | exact ev_round_zero 4
    | norm_num [npMean, npMedian, sortQ, insertSorted, ev_round_24, ev_round_1_2,
        ev_round_1_4]

theorem ev_sim_risk :
    run_simulation (risktakerConfig 1 false) dSimCX = Except.ok simRisk := by
  simp only [run_simulation, risktakerConfig]
  rw [show (("none" : String) == "early") = false from rfl]
  rw [show dSimCX 0 = dBatchCX from rfl, ev_risk_batch]
  refine congrArg Except.ok ?_
  unfold buildResult bCX simRisk
  congr 1
  all_goals first
    | rfl
    | exact ev_round_zero 4
    | norm_num [npMean, npMedian, sortQ, insertSorted, ev_round_24, ev_round_1_2,
        ev_round_1_4]

/-- The full comparative result of the concrete run. -/
def compW : CompResult :=
  { control := simCtrl, specialist := simSpec, risktaker := simRisk
    specialist_vs_control := 0, risktaker_vs_control := 0 }

theorem ev_comp :
    run_comparative_analysis 1 false dSimCX dSimCX dSimCX = Except.ok compW := by
  simp only [run_comparative_analysis, ev_sim_ctrl, ev_sim_spec, ev_sim_risk]
  refine congrArg Except.ok ?_
  unfold compW
  congr 1
  all_goals first
    | rfl
    | norm_num [simCtrl, simSpec, simRisk, ev_round_zero]

/-- C5 witness — the delta equations applied to the concrete
comparative run. -/
theorem claim_C5_witness :
    run_comparative_analysis 1 false dSimCX dSimCX dSimCX = Except.ok compW ∧
    compW.specialist_vs_control =
      pyRound (compW.specialist.director_mean - compW.control.director_mean) 4 ∧
    compW.risktaker_vs_control =
      pyRound (compW.risktaker.director_mean - compW.control.director_mean) 4 :=
  ⟨ev_comp,
    (claim_C5_comparative_deltas 1 false dSimCX dSimCX dSimCX compW
      ev_comp).2.2.2.2.2.2.2.2.2.1,
    (claim_C5_comparative_deltas 1 false dSimCX dSimCX dSimCX compW
      ev_comp).2.2.2.2.2.2.2.2.2.2⟩
